import Mathlib

/-!
Verification development for the AgentWallet governance gateway.

The definitions below are a shallow embedding of the JavaScript sources:
monetary amounts become rationals, timestamps become integers
(milliseconds), Prisma tables become lists carried in an explicit state
record, and each route or service method becomes a Lean function that
returns its result together with the updated state.  JavaScript string
enumerations are rendered as inductive types.
-/

namespace AgentWallet

/-- Milliseconds in one hour, as in the source arithmetic. -/
def msPerHour : Int := 3600000

/-- Milliseconds in one minute. -/
def msPerMinute : Int := 60000

/-- Transaction status enumeration (Prisma TransactionStatus plus the
V2 KILL_SWITCHED value used by the audit statistics). -/
inductive TxStatus
  | PENDING
  | APPROVED
  | AWAITING_APPROVAL
  | REJECTED
  | COMPLETED
  | FAILED
  | CANCELLED
  | KILL_SWITCHED
deriving DecidableEq, Repr

/-- Wallet status enumeration. -/
inductive WalletStatus
  | ACTIVE
  | FROZEN
  | CLOSED
  | KILL_SWITCHED
deriving DecidableEq, Repr

/-- Agent status enumeration. -/
inductive AgentStatus
  | ACTIVE
  | PAUSED
  | SUSPENDED
  | FROZEN
  | TERMINATED
  | KILLED
deriving DecidableEq, Repr

/-- Spend-rule kinds handled by RulesEngine.evaluateRule.  KILL_SWITCH is
the pseudo-kind used for the result entry returned when the kill-switch
pre-check blocks the evaluation; OTHER stands for any unknown ruleType,
which the engine's default branch lets pass. -/
inductive RuleType
  | PER_TRANSACTION_LIMIT
  | DAILY_LIMIT
  | WEEKLY_LIMIT
  | MONTHLY_LIMIT
  | CATEGORY_WHITELIST
  | CATEGORY_BLACKLIST
  | RECIPIENT_WHITELIST
  | RECIPIENT_BLACKLIST
  | TIME_WINDOW
  | REQUIRES_APPROVAL
  | SIGNAL_FILTER
  | KILL_SWITCH
  | OTHER
deriving DecidableEq, Repr

/-- The JSON parameters of a spend rule.  Absent JSON keys are `none`;
in the source a missing numeric key makes the comparison against it
false (NaN semantics), which the checks below reproduce by matching. -/
structure RuleParams where
  limit : Option Rat := none
  threshold : Option Rat := none
  categories : Option (List String) := none
  recipients : Option (List String) := none
  startHour : Option Int := none
  endHour : Option Int := none
  allowedSignals : Option (List String) := none
deriving DecidableEq, Repr

/-- A SpendRule row. -/
structure SpendRule where
  id : Nat
  walletId : Nat
  ruleType : RuleType
  parameters : RuleParams
  active : Bool := true
  priority : Int := 0
deriving DecidableEq, Repr

/-- One entry of the ruleCheckResults audit list (reason strings and the
details object are presentation only and are not modelled). -/
structure RuleCheckResult where
  ruleId : Nat
  ruleType : RuleType
  passed : Bool
  requiresApproval : Bool := false
deriving DecidableEq, Repr

/-- The structured verdict returned by RulesEngine.evaluateTransaction. -/
structure RuleEvaluation where
  approved : Bool
  requiresApproval : Bool
  killSwitched : Bool
  results : List RuleCheckResult
deriving DecidableEq, Repr

/-- A Transaction row.  metadata.pnl and metadata.signal_strength are the
only metadata keys the governed logic reads, so they are modelled as
fields; the rest of metadata is opaque. -/
structure Transaction where
  id : Nat
  walletId : Nat
  amount : Rat
  recipientId : Option String := none
  category : Option String := none
  description : Option String := none
  status : TxStatus
  createdAt : Int
  completedAt : Option Int := none
  pnl : Option Rat := none
  signalStrength : Option String := none
  ruleCheckResults : Option RuleEvaluation := none
deriving DecidableEq, Repr

/-- A Wallet row. -/
structure Wallet where
  id : Nat
  agentId : Nat
  balance : Rat
  status : WalletStatus := WalletStatus.ACTIVE
deriving DecidableEq, Repr

/-- Kill-switch trigger kinds. -/
inductive KSTrigger
  | DRAWDOWN_PERCENT
  | LOSS_AMOUNT
  | CONSECUTIVE_LOSSES
  | DAILY_LOSS_LIMIT
deriving DecidableEq, Repr

/-- A KillSwitch row. -/
structure KillSwitch where
  id : Nat
  walletId : Nat
  triggerType : KSTrigger
  threshold : Rat
  windowHours : Int := 24
  active : Bool := true
  triggered : Bool := false
  triggeredAt : Option Int := none
  resetAt : Option Int := none
  currentValue : Option Rat := none
deriving DecidableEq, Repr

/-- AuditLog decision values. -/
inductive AuditDecision
  | ALLOWED
  | BLOCKED
  | ESCALATED
  | SYSTEM
deriving DecidableEq, Repr

/-- AuditLog action values used by the modelled code paths. -/
inductive AuditAction
  | KILL_SWITCH_TRIGGERED
  | KILL_SWITCH_RESET
deriving DecidableEq, Repr

/-- An AuditLog row (reasoning JSON is presentation and not modelled). -/
structure AuditEntry where
  agentId : Nat
  action : AuditAction
  resourceId : Nat
  decision : AuditDecision
deriving DecidableEq, Repr

/-- The wallet-server database state threaded through the admission
path: the Prisma tables touched by transactions.js and rulesEngine.js,
plus the id counter for created transactions. -/
structure St where
  wallets : List Wallet
  transactions : List Transaction
  rules : List SpendRule
  killSwitches : List KillSwitch
  auditLog : List AuditEntry
  nextTxId : Nat
deriving DecidableEq, Repr

/-- The wall-clock values the engine obtains from the Date library:
the current instant plus the window starts computed by setHours /
setDate, and the current UTC hour.  They are inputs of the embedding
because the engine only compares against them. -/
structure Clock where
  now : Int
  startOfDay : Int
  startOfWeek : Int
  startOfMonth : Int
  currentHourUTC : Int
deriving DecidableEq, Repr

/-- The candidate transaction handed to the rules engine
(amount, category, recipientId; metadata.signal_strength when a caller
forwards metadata). -/
structure TxRequest where
  amount : Rat
  category : Option String := none
  recipientId : Option String := none
  signalStrength : Option String := none
deriving DecidableEq, Repr

-- ── Rules engine: helpers and per-kind checks ────────────────────────

/-- getSpendSince: aggregate of amount over the wallet's COMPLETED
transactions with createdAt at or after the cutoff.  (The source applies
no category filter.) -/
def getSpendSince (txs : List Transaction) (walletId : Nat) (since : Int) : Rat :=
  (txs.filter (fun t =>
    t.walletId == walletId && t.status == TxStatus.COMPLETED &&
      decide (since ≤ t.createdAt))).foldr (fun t acc => t.amount + acc) 0

/-- Outcome of a single rule check. -/
structure CheckOutcome where
  passed : Bool
  requiresApproval : Bool := false
deriving DecidableEq, Repr

/-- checkPerTransactionLimit. -/
def checkPerTransactionLimit (amount : Rat) (p : RuleParams) : CheckOutcome :=
  match p.limit with
  | some l => { passed := decide (amount ≤ l) }
  | none => { passed := false }

/-- checkDailyLimit (the spend aggregate and today's start are passed in). -/
def checkLimitSince (spend : Rat) (amount : Rat) (p : RuleParams) : CheckOutcome :=
  match p.limit with
  | some l => { passed := decide (spend + amount ≤ l) }
  | none => { passed := false }

/-- checkCategoryWhitelist: passes when category is absent or listed. -/
def checkCategoryWhitelist (category : Option String) (p : RuleParams) : CheckOutcome :=
  match category with
  | none => { passed := true }
  | some c => { passed := (p.categories.getD []).contains c }

/-- checkCategoryBlacklist: passes when category is absent or not listed. -/
def checkCategoryBlacklist (category : Option String) (p : RuleParams) : CheckOutcome :=
  match category with
  | none => { passed := true }
  | some c => { passed := !((p.categories.getD []).contains c) }

/-- checkRecipientWhitelist. -/
def checkRecipientWhitelist (recipientId : Option String) (p : RuleParams) : CheckOutcome :=
  match recipientId with
  | none => { passed := true }
  | some r => { passed := (p.recipients.getD []).contains r }

/-- checkRecipientBlacklist. -/
def checkRecipientBlacklist (recipientId : Option String) (p : RuleParams) : CheckOutcome :=
  match recipientId with
  | none => { passed := true }
  | some r => { passed := !((p.recipients.getD []).contains r) }

/-- checkTimeWindow: current UTC hour inside the half-open window.
A missing bound makes the comparison false (NaN semantics). -/
def checkTimeWindow (currentHour : Int) (p : RuleParams) : CheckOutcome :=
  match p.startHour, p.endHour with
  | some s, some e => { passed := decide (s ≤ currentHour) && decide (currentHour < e) }
  | _, _ => { passed := false }

/-- checkRequiresApproval: never blocks; raises the approval flag when
the amount strictly exceeds the threshold. -/
def checkRequiresApproval (amount : Rat) (p : RuleParams) : CheckOutcome :=
  match p.threshold with
  | some t => { passed := true, requiresApproval := decide (t < amount) }
  | none => { passed := true, requiresApproval := false }

/-- Signal names used by the signal-filter defaults. -/
def strongSignal : String := "STRONG"

/-- Signal names used by the signal-filter defaults. -/
def moderateSignal : String := "MODERATE"

/-- Signal name substituted for an absent metadata.signal_strength. -/
def unknownSignal : String := "UNKNOWN"

/-- checkSignalFilter with the source defaults. -/
def checkSignalFilter (signalStrength : Option String) (p : RuleParams) : CheckOutcome :=
  let allowed := p.allowedSignals.getD [strongSignal, moderateSignal]
  { passed := allowed.contains (signalStrength.getD unknownSignal) }

/-- evaluateRule: dispatch on the rule kind; unknown kinds pass. -/
def evaluateRule (clock : Clock) (txs : List Transaction) (walletId : Nat)
    (req : TxRequest) (rule : SpendRule) : CheckOutcome :=
  match rule.ruleType with
  | RuleType.PER_TRANSACTION_LIMIT => checkPerTransactionLimit req.amount rule.parameters
  | RuleType.DAILY_LIMIT =>
      checkLimitSince (getSpendSince txs walletId clock.startOfDay) req.amount rule.parameters
  | RuleType.WEEKLY_LIMIT =>
      checkLimitSince (getSpendSince txs walletId clock.startOfWeek) req.amount rule.parameters
  | RuleType.MONTHLY_LIMIT =>
      checkLimitSince (getSpendSince txs walletId clock.startOfMonth) req.amount rule.parameters
  | RuleType.CATEGORY_WHITELIST => checkCategoryWhitelist req.category rule.parameters
  | RuleType.CATEGORY_BLACKLIST => checkCategoryBlacklist req.category rule.parameters
  | RuleType.RECIPIENT_WHITELIST => checkRecipientWhitelist req.recipientId rule.parameters
  | RuleType.RECIPIENT_BLACKLIST => checkRecipientBlacklist req.recipientId rule.parameters
  | RuleType.TIME_WINDOW => checkTimeWindow clock.currentHourUTC rule.parameters
  | RuleType.REQUIRES_APPROVAL => checkRequiresApproval req.amount rule.parameters
  | RuleType.SIGNAL_FILTER => checkSignalFilter req.signalStrength rule.parameters
  | _ => { passed := true }

/-- The evaluation loop of evaluateTransaction: walks the rule list in
order, accumulating one result entry per rule and folding the approved
and requiresApproval flags exactly as the source's for-loop does. -/
def runRules (clock : Clock) (txs : List Transaction) (walletId : Nat) (req : TxRequest) :
    List SpendRule → Bool → Bool → List RuleCheckResult → RuleEvaluation
  | [], approved, reqApp, acc =>
      { approved := approved, requiresApproval := reqApp, killSwitched := false,
        results := acc.reverse }
  | rule :: rest, approved, reqApp, acc =>
      let o := evaluateRule clock txs walletId req rule
      runRules clock txs walletId req rest
        (if o.passed then approved else false)
        (if o.requiresApproval then true else reqApp)
        ({ ruleId := rule.id, ruleType := rule.ruleType,
           passed := o.passed, requiresApproval := o.requiresApproval } :: acc)

/-- Insertion of a rule into a priority-descending list (model of the
orderBy priority desc of the findMany query). -/
def insertByPriority (r : SpendRule) : List SpendRule → List SpendRule
  | [] => [r]
  | x :: xs => if x.priority < r.priority then r :: x :: xs else x :: insertByPriority r xs

/-- Sort rules by descending priority. -/
def sortByPriorityDesc : List SpendRule → List SpendRule
  | [] => []
  | x :: xs => insertByPriority x (sortByPriorityDesc xs)

/-- The wallet's active rules in the order the engine receives them. -/
def activeRules (rules : List SpendRule) (walletId : Nat) : List SpendRule :=
  sortByPriorityDesc (rules.filter (fun r => r.walletId == walletId && r.active))

-- ── Kill switch: condition evaluation, latching, pre-check ──────────

/-- Result of evaluateKillSwitchCondition. -/
structure KSCondResult where
  trigger : Bool
  currentValue : Option Rat := none
deriving DecidableEq, Repr

/-- Category name of trading transactions. -/
def tradingCategory : String := "trading"

/-- Insertion of a transaction into a createdAt-descending list
(model of orderBy createdAt desc). -/
def insertByCreatedDesc (t : Transaction) : List Transaction → List Transaction
  | [] => [t]
  | x :: xs => if x.createdAt < t.createdAt then t :: x :: xs else x :: insertByCreatedDesc t xs

/-- Sort transactions newest first. -/
def sortByCreatedDesc : List Transaction → List Transaction
  | [] => []
  | x :: xs => insertByCreatedDesc x (sortByCreatedDesc xs)

/-- Length of the leading streak of losing trades (metadata.pnl < 0,
missing pnl counting as 0) in a newest-first list. -/
def leadingLossStreak : List Transaction → Nat
  | [] => 0
  | t :: rest => if t.pnl.getD 0 < 0 then leadingLossStreak rest + 1 else 0

/-- Sum of the absolute values of the negative metadata.pnl entries. -/
def totalLosses (txs : List Transaction) : Rat :=
  txs.foldr (fun t acc => (if t.pnl.getD 0 < 0 then |t.pnl.getD 0| else 0) + acc) 0

/-- evaluateKillSwitchCondition, by trigger kind. -/
def evalKSCondition (st : St) (clock : Clock) (walletId : Nat) (ks : KillSwitch) :
    KSCondResult :=
  let windowStart := clock.now - ks.windowHours * msPerHour
  match ks.triggerType with
  | KSTrigger.DRAWDOWN_PERCENT =>
      let txs := st.transactions.filter (fun t =>
        t.walletId == walletId && t.status == TxStatus.COMPLETED &&
          decide (windowStart ≤ t.createdAt))
      if txs.isEmpty then { trigger := false }
      else
        let currentBalance :=
          (((st.wallets.find? (fun w => w.id == walletId)).map Wallet.balance).getD 0)
        let peak := currentBalance + txs.foldr (fun t acc => t.amount + acc) 0
        let drawdown := if 0 < peak then (peak - currentBalance) / peak else 0
        if ks.threshold ≤ drawdown then
          { trigger := true, currentValue := some drawdown }
        else { trigger := false, currentValue := some drawdown }
  | KSTrigger.LOSS_AMOUNT =>
      let txs := st.transactions.filter (fun t =>
        t.walletId == walletId && t.status == TxStatus.COMPLETED &&
          decide (windowStart ≤ t.createdAt))
      let totalLoss := totalLosses txs
      if ks.threshold ≤ totalLoss then
        { trigger := true, currentValue := some totalLoss }
      else { trigger := false, currentValue := some totalLoss }
  | KSTrigger.CONSECUTIVE_LOSSES =>
      let thresholdInt := ks.threshold.floor
      let recent := (sortByCreatedDesc (st.transactions.filter (fun t =>
        t.walletId == walletId && t.status == TxStatus.COMPLETED &&
          t.category == some tradingCategory))).take (thresholdInt + 5).toNat
      let streak := leadingLossStreak recent
      if thresholdInt ≤ (streak : Int) then
        { trigger := true, currentValue := some (streak : Rat) }
      else { trigger := false, currentValue := some (streak : Rat) }
  | KSTrigger.DAILY_LOSS_LIMIT =>
      let txs := st.transactions.filter (fun t =>
        t.walletId == walletId && t.status == TxStatus.COMPLETED &&
          decide (clock.startOfDay ≤ t.createdAt))
      let todayLoss := totalLosses txs
      if ks.threshold ≤ todayLoss then
        { trigger := true, currentValue := some todayLoss }
      else { trigger := false, currentValue := some todayLoss }

/-- Result of checkKillSwitch (reason strings dropped). -/
structure KSStatus where
  triggered : Bool
  killSwitchId : Option Nat := none
deriving DecidableEq, Repr

/-- The audit entry written when a kill switch fires during the
pre-check (decision BLOCKED, resource the wallet id). -/
def latchAuditEntry (st : St) (walletId : Nat) : AuditEntry :=
  { agentId := (((st.wallets.find? (fun w => w.id == walletId)).map Wallet.agentId).getD 0),
    action := AuditAction.KILL_SWITCH_TRIGGERED,
    resourceId := walletId, decision := AuditDecision.BLOCKED }

/-- The atomic effect of a kill switch firing: mark the switch
triggered, move the wallet to KILL_SWITCHED, and append the audit
entry. -/
def latchSwitch (st : St) (clock : Clock) (walletId : Nat) (ksId : Nat)
    (value : Option Rat) : St :=
  { st with
    killSwitches := st.killSwitches.map (fun k =>
      if k.id == ksId then
        { k with triggered := true, triggeredAt := some clock.now, currentValue := value }
      else k),
    wallets := st.wallets.map (fun w =>
      if w.id == walletId then { w with status := WalletStatus.KILL_SWITCHED } else w),
    auditLog := latchAuditEntry st walletId :: st.auditLog }

/-- The loop of checkKillSwitch over the wallet's active switches: a
switch already triggered and never reset blocks immediately; otherwise
its condition is evaluated and, on firing, the switch latches. -/
def checkSwitchList (st : St) (clock : Clock) (walletId : Nat) :
    List KillSwitch → KSStatus × St
  | [] => ({ triggered := false }, st)
  | ks :: rest =>
      if ks.triggered && ks.resetAt == none then
        ({ triggered := true, killSwitchId := some ks.id }, st)
      else
        let cond := evalKSCondition st clock walletId ks
        if cond.trigger then
          ({ triggered := true, killSwitchId := some ks.id },
            latchSwitch st clock walletId ks.id cond.currentValue)
        else checkSwitchList st clock walletId rest

/-- checkKillSwitch: fetch the wallet's active switches and run the loop. -/
def checkKillSwitch (st : St) (clock : Clock) (walletId : Nat) : KSStatus × St :=
  checkSwitchList st clock walletId
    (st.killSwitches.filter (fun k => k.walletId == walletId && k.active))

/-- RulesEngine.evaluateTransaction: kill-switch pre-check, then the
rule loop over the wallet's active rules in descending priority. -/
def rulesEvaluateTransaction (st : St) (clock : Clock) (walletId : Nat)
    (req : TxRequest) : RuleEvaluation × St :=
  let p := checkKillSwitch st clock walletId
  if p.1.triggered then
    ({ approved := false, requiresApproval := false, killSwitched := true,
       results := [{ ruleId := p.1.killSwitchId.getD 0, ruleType := RuleType.KILL_SWITCH,
                     passed := false }] }, p.2)
  else
    (runRules clock p.2.transactions walletId req (activeRules p.2.rules walletId)
      true false [], p.2)

/-- RulesEngine.resetKillSwitch: clear the latch, set resetAt,
reactivate the wallet, log the reset (owner authorization is checked by
the route and out of scope).  Returns none when the switch is absent. -/
def resetKillSwitch (st : St) (clock : Clock) (ksId : Nat) : Option St :=
  match st.killSwitches.find? (fun k => k.id == ksId) with
  | none => none
  | some ks =>
      let agentId :=
        (((st.wallets.find? (fun w => w.id == ks.walletId)).map Wallet.agentId).getD 0)
      some { st with
        killSwitches := st.killSwitches.map (fun k =>
          if k.id == ksId then
            { k with triggered := false, triggeredAt := none,
                     resetAt := some clock.now, currentValue := none }
          else k),
        wallets := st.wallets.map (fun w =>
          if w.id == ks.walletId then { w with status := WalletStatus.ACTIVE } else w),
        auditLog :=
          { agentId := agentId, action := AuditAction.KILL_SWITCH_RESET,
            resourceId := ksId, decision := AuditDecision.ALLOWED } :: st.auditLog }

-- ── Admission: POST /api/transactions ────────────────────────────────

/-- Outcome classes of the admission route (HTTP codes in comments):
the first four return without persisting anything. -/
inductive SubmitResult
  | validationError
  | walletNotFound
  | walletNotActive
  | insufficientBalance
  | completed (txId : Nat) (eval : RuleEvaluation)
  | rejected (txId : Nat) (eval : RuleEvaluation)
  | awaitingApproval (txId : Nat) (eval : RuleEvaluation)
deriving DecidableEq, Repr

/-- The request body of POST /api/transactions (recipientType and
metadata do not influence the modelled logic). -/
structure SubmitRequest where
  walletId : Nat
  amount : Rat
  recipientId : Option String := none
  category : Option String := none
  description : Option String := none
deriving DecidableEq, Repr

/-- executeTransaction: decrement the wallet balance by the
transaction's amount and mark it COMPLETED with completedAt now. -/
def executeTransaction (st : St) (clock : Clock) (txId : Nat) : St :=
  match st.transactions.find? (fun t => t.id == txId) with
  | none => st
  | some tx =>
      { st with
        wallets := st.wallets.map (fun w =>
          if w.id == tx.walletId then { w with balance := w.balance - tx.amount } else w),
        transactions := st.transactions.map (fun t =>
          if t.id == txId then
            { t with status := TxStatus.COMPLETED, completedAt := some clock.now }
          else t) }

/-- The rules verdict (and evaluation-time state change) the admission
path obtains from the engine for a request body. -/
def admissionEvaluation (st : St) (clock : Clock) (req : SubmitRequest) :
    RuleEvaluation × St :=
  rulesEvaluateTransaction st clock req.walletId
    { amount := req.amount, category := req.category, recipientId := req.recipientId }

/-- The admission route: validation, wallet preconditions, rules
evaluation, status selection, persistence, immediate execution of
approved transactions. -/
def submitTransaction (st : St) (clock : Clock) (req : SubmitRequest) :
    SubmitResult × St :=
  if req.amount == 0 then (SubmitResult.validationError, st)
  else if req.amount ≤ 0 then (SubmitResult.validationError, st)
  else
    match st.wallets.find? (fun w => w.id == req.walletId) with
    | none => (SubmitResult.walletNotFound, st)
    | some wallet =>
        if wallet.status ≠ WalletStatus.ACTIVE then (SubmitResult.walletNotActive, st)
        else if wallet.balance < req.amount then (SubmitResult.insufficientBalance, st)
        else
          let p := admissionEvaluation st clock req
          let txStatus :=
            if !p.1.approved then TxStatus.REJECTED
            else if p.1.requiresApproval then TxStatus.AWAITING_APPROVAL
            else TxStatus.APPROVED
          let txId := p.2.nextTxId
          let tx : Transaction :=
            { id := txId, walletId := req.walletId, amount := req.amount,
              recipientId := req.recipientId, category := req.category,
              description := req.description, status := txStatus,
              createdAt := clock.now, ruleCheckResults := some p.1 }
          let st₂ := { p.2 with transactions := tx :: p.2.transactions, nextTxId := txId + 1 }
          if txStatus == TxStatus.APPROVED then
            (SubmitResult.completed txId p.1, executeTransaction st₂ clock txId)
          else if txStatus == TxStatus.REJECTED then
            (SubmitResult.rejected txId p.1, st₂)
          else (SubmitResult.awaitingApproval txId p.1, st₂)

-- ── Spawn governor ───────────────────────────────────────────────────

/-- JavaScript  x || d  on an optional number: a missing or zero value
falls back to the default. -/
def jsOr (o : Option Rat) (d : Rat) : Rat :=
  match o with
  | some v => if v == 0 then d else v
  | none => d

/-- The spawn policy of a lineage node.  maxSpendFrac and
maxTransactionFrac embed the source's maxSpendRatio and
maxTransactionRatio; dailyLimitFrac below embeds daily_limit_ratio. -/
structure SpawnPolicy where
  inheritSpendLimits : Bool := true
  inheritVendorAllowlist : Bool := true
  inheritKillSwitch : Bool := true
  maxSpendFrac : Rat := 1
  maxTransactionFrac : Rat := 1
  maxSpawnDepth : Int := 3
  maxChildren : Nat := 10
  childrenCanSpawn : Bool := true
  sharedBudget : Bool := true
  childBudgetAllocation : Rat := 0
deriving DecidableEq, Repr

/-- _defaultSpawnPolicy. -/
def defaultSpawnPolicy : SpawnPolicy := {}

/-- The policy object _deriveChildPolicy extracts from the parent's
wallet rules (a field stays none when no rule of that kind exists). -/
structure ParentRules where
  dailyLimit : Option Rat := none
  maxSpendPerTx : Option Rat := none
  vendorAllowlist : Option (List String) := none
deriving DecidableEq, Repr

/-- The walk over the parent's wallets' rules: a later rule of the same
kind overwrites the slot, and a missing or zero limit parameter falls
back to the literal defaults of the source. -/
def extractParentRules (rules : List SpendRule) : ParentRules :=
  rules.foldl (fun pr r =>
    match r.ruleType with
    | RuleType.DAILY_LIMIT => { pr with dailyLimit := some (jsOr r.parameters.limit 1000) }
    | RuleType.PER_TRANSACTION_LIMIT =>
        { pr with maxSpendPerTx := some (jsOr r.parameters.limit 100) }
    | _ => pr) {}

/-- The derived child policy returned by _deriveChildPolicy. -/
structure ChildPolicy where
  dailyLimit : Rat
  maxSpendPerTx : Rat
  vendorAllowlist : List String
deriving DecidableEq, Repr

/-- The childPolicyOverrides argument of authorizeSpawn. -/
structure PolicyOverrides where
  dailyLimit : Option Rat := none
  maxSpendPerTx : Option Rat := none
  vendorAllowlist : Option (List String) := none
  dailyLimitFrac : Option Rat := none
deriving DecidableEq, Repr

/-- _deriveChildPolicy: scale the parent's limits by the spawn-policy
fractions, clamp by any override via min, intersect any vendor-list
override with the parent's, and apply the daily-limit fraction
override clamped to at most one. -/
def deriveChildPolicy (parentWalletRules : List SpendRule) (sp : SpawnPolicy)
    (ov : PolicyOverrides) : ChildPolicy :=
  let pr := extractParentRules parentWalletRules
  let base : ChildPolicy :=
    { dailyLimit := jsOr pr.dailyLimit 1000 * sp.maxSpendFrac,
      maxSpendPerTx := jsOr pr.maxSpendPerTx 100 * sp.maxTransactionFrac,
      vendorAllowlist := pr.vendorAllowlist.getD [] }
  let c1 :=
    match ov.dailyLimit with
    | some d => { base with dailyLimit := min d base.dailyLimit }
    | none => base
  let c2 :=
    match ov.maxSpendPerTx with
    | some m => { c1 with maxSpendPerTx := min m c1.maxSpendPerTx }
    | none => c1
  let c3 :=
    match ov.vendorAllowlist, pr.vendorAllowlist with
    | some l, some pl =>
        if 0 < pl.length then
          { c2 with vendorAllowlist := l.filter (fun v => pl.contains v) }
        else c2
    | _, _ => c2
  match ov.dailyLimitFrac with
  | some f => { c3 with dailyLimit := c3.dailyLimit * min f 1 }
  | none => c3

/-- _restrictSpawnPolicy: the child's own spawn policy is the parent's
with the spawn depth decremented (never below zero). -/
def restrictSpawnPolicy (p : SpawnPolicy) : SpawnPolicy :=
  { p with maxSpawnDepth := max 0 (p.maxSpawnDepth - 1) }

/-- Lineage node status. -/
inductive LineageStatus
  | active
  | terminated
deriving DecidableEq, Repr

/-- An AgentLineage row. -/
structure Lineage where
  agentId : Nat
  parentId : Option Nat := none
  rootId : Nat
  depth : Nat
  childrenIds : List Nat := []
  status : LineageStatus := LineageStatus.active
  spawnPolicy : Option SpawnPolicy := none
deriving DecidableEq, Repr

/-- A SpawnEvent row. -/
structure SpawnEvent where
  parentId : Nat
  childId : Nat
  depth : Nat
  inheritedPolicy : Option ChildPolicy := none
  authorized : Bool
deriving DecidableEq, Repr

/-- An Agent row; walletAddress embeds metadata.walletAddress and
coinbaseLinked embeds the presence of metadata.coinbaseWalletId, the
two metadata keys the Coinbase adapter reads. -/
structure Agent where
  id : Nat
  status : AgentStatus := AgentStatus.ACTIVE
  walletAddress : Option String := none
  coinbaseLinked : Bool := false
deriving DecidableEq, Repr

-- ── Cross-agent governor data ────────────────────────────────────────

/-- Policy settlement mode. -/
inductive SettlementMode
  | immediate
  | batched
  | escrow
deriving DecidableEq, Repr

/-- Cross-agent transaction settlement status. -/
inductive SettlementStatus
  | pending
  | settled
  | failed
deriving DecidableEq, Repr

/-- Cross-agent authorization method. -/
inductive AuthMethod
  | auto
  | escalated
  | humanApproved
deriving DecidableEq, Repr

/-- A CrossAgentPolicy row (defaults are those of createPolicy). -/
structure CrossAgentPolicy where
  id : Nat
  ownerId : Nat
  sourceAgentId : Nat
  targetAgentId : Option Nat := none
  targetAgentGroup : Option String := none
  maxPerTransaction : Rat := 100
  maxDailyToTarget : Rat := 1000
  maxDailyAllAgents : Rat := 5000
  requireHumanApprovalAbove : Rat := 500
  allowedPaymentTypes : List String := []
  requireMutualPolicy : Bool := true
  settlementMode : SettlementMode := SettlementMode.immediate
  minCounterpartyTrustScore : Rat := 0
  enabled : Bool := true
deriving DecidableEq, Repr

/-- An AgentGroup row. -/
structure AgentGroup where
  id : Nat
  ownerId : Nat
  name : String
  agentIds : List Nat
deriving DecidableEq, Repr

/-- A CrossAgentTransaction row. -/
structure CrossAgentTransaction where
  id : Nat
  sourceAgentId : Nat
  targetAgentId : Nat
  amount : Rat
  paymentType : String
  policyId : Option Nat := none
  authorized : Bool
  authorizationMethod : AuthMethod
  settlementStatus : SettlementStatus
  requiresHuman : Bool := false
  createdAt : Int
deriving DecidableEq, Repr

-- ── Dead-man switch data ─────────────────────────────────────────────

/-- Dead-man action ladder. -/
inductive DmsAction
  | alert
  | throttle
  | freeze
  | terminate
deriving DecidableEq, Repr

/-- A DeadManSwitchConfig row (defaults are those of registerAgent;
anomalySpendMul and anomalyTxCountMul embed anomalySpendMultiplier and
anomalyTxCountMultiplier). -/
structure DmsConfig where
  agentId : Nat
  heartbeatIntervalSeconds : Int := 60
  missedHeartbeatThreshold : Int := 3
  anomalyWindowMinutes : Int := 60
  anomalySpendMul : Rat := 3
  anomalyTxCountMul : Rat := 5
  maxTxPerMinute : Nat := 10
  maxUniqueVendorsPerHour : Nat := 20
  onAnomaly : DmsAction := DmsAction.alert
  onMissedHeartbeat : DmsAction := DmsAction.freeze
  onManualTrigger : DmsAction := DmsAction.terminate
  cascadeToChildren : Bool := true
  notifyParentOnTrigger : Bool := true
  autoRecover : Bool := false
  recoveryRequiresHuman : Bool := true
  enabled : Bool := true
deriving DecidableEq, Repr

/-- Dead-man trigger sources. -/
inductive DmsTriggerType
  | velocity
  | anomaly
  | heartbeat
  | manual
deriving DecidableEq, Repr

/-- A DeadManSwitchEvent row (details JSON dropped). -/
structure DmsEvent where
  agentId : Nat
  triggerType : DmsTriggerType
  actionTaken : DmsAction
  cascadedTo : List Nat
  resolved : Bool
deriving DecidableEq, Repr

-- ── Combined system state ────────────────────────────────────────────

/-- The full V2 system state: the wallet-server tables of St plus the
governance tables and the dead-man in-process maps. -/
structure Sys where
  st : St
  agents : List Agent
  lineages : List Lineage
  spawnEvents : List SpawnEvent
  frozenAgents : List Nat
  txWindows : List (Nat × List Int)
  dmsConfigs : List DmsConfig
  dmsEvents : List DmsEvent
  crossPolicies : List CrossAgentPolicy
  groups : List AgentGroup
  crossTxs : List CrossAgentTransaction
  nextCrossTxId : Nat
deriving DecidableEq, Repr

/-- The lineage row of an agent, when present. -/
def lineageOf (sys : Sys) (agentId : Nat) : Option Lineage :=
  sys.lineages.find? (fun l => l.agentId == agentId)

/-- The direct children recorded for an agent (empty when it has no
lineage row). -/
def childrenOf (sys : Sys) (agentId : Nat) : List Nat :=
  ((lineageOf sys agentId).map Lineage.childrenIds).getD []

-- ── Spawn governor: authorizeSpawn ───────────────────────────────────

/-- The denial reasons of authorizeSpawn. -/
inductive SpawnDenial
  | parentNotFound
  | parentStatusBlocked
  | maxDepthReached
  | maxChildrenReached
  | spawningProhibited
  | childLineageExists
deriving DecidableEq, Repr

/-- Outcome of authorizeSpawn. -/
inductive SpawnOutcome
  | denied (reason : SpawnDenial)
  | authorized (inherited : ChildPolicy)
deriving DecidableEq, Repr

/-- The parent's wallet rules as fetched by authorizeSpawn's include:
all rules of all of the parent's wallets, in wallet order. -/
def parentWalletRules (sys : Sys) (parentId : Nat) : List SpendRule :=
  (sys.st.wallets.filter (fun w => w.agentId == parentId)).flatMap
    (fun w => sys.st.rules.filter (fun r => r.walletId == w.id))

/-- authorizeSpawn: load the parent, create its root lineage if absent
(this creation persists even when a later check denies the spawn),
check depth, child count, spawn permission and child uniqueness, then
derive the child policy and atomically create the child lineage,
extend the parent's children list and append the spawn event. -/
def authorizeSpawn (sys : Sys) (parentId childId : Nat) (ov : PolicyOverrides) :
    SpawnOutcome × Sys :=
  match sys.agents.find? (fun a => a.id == parentId) with
  | none => (SpawnOutcome.denied SpawnDenial.parentNotFound, sys)
  | some parent =>
      if parent.status == AgentStatus.FROZEN || parent.status == AgentStatus.TERMINATED
          || parent.status == AgentStatus.KILLED then
        (SpawnOutcome.denied SpawnDenial.parentStatusBlocked, sys)
      else
        let rootLineage : Lineage :=
          { agentId := parentId, parentId := none, rootId := parentId, depth := 0 }
        let parentLineage := (lineageOf sys parentId).getD rootLineage
        let sys₁ :=
          match lineageOf sys parentId with
          | some _ => sys
          | none => { sys with lineages := sys.lineages ++ [rootLineage] }
        let sp := parentLineage.spawnPolicy.getD defaultSpawnPolicy
        if sp.maxSpawnDepth ≤ (parentLineage.depth : Int) then
          (SpawnOutcome.denied SpawnDenial.maxDepthReached, sys₁)
        else if sp.maxChildren ≤ parentLineage.childrenIds.length then
          (SpawnOutcome.denied SpawnDenial.maxChildrenReached, sys₁)
        else if 0 < parentLineage.depth && !sp.childrenCanSpawn then
          (SpawnOutcome.denied SpawnDenial.spawningProhibited, sys₁)
        else if (lineageOf sys₁ childId).isSome then
          (SpawnOutcome.denied SpawnDenial.childLineageExists, sys₁)
        else
          let inherited := deriveChildPolicy (parentWalletRules sys parentId) sp ov
          let childLineage : Lineage :=
            { agentId := childId, parentId := some parentId,
              rootId := parentLineage.rootId, depth := parentLineage.depth + 1,
              childrenIds := [], spawnPolicy := some (restrictSpawnPolicy sp) }
          let sys₂ :=
            { sys₁ with
              lineages :=
                (sys₁.lineages.map (fun l =>
                  if l.agentId == parentId then
                    { l with childrenIds := l.childrenIds ++ [childId] }
                  else l)) ++ [childLineage],
              spawnEvents := sys₁.spawnEvents ++
                [{ parentId := parentId, childId := childId,
                   depth := childLineage.depth, inheritedPolicy := some inherited,
                   authorized := true }] }
          (SpawnOutcome.authorized inherited, sys₂)

-- ── Cross-agent governor ─────────────────────────────────────────────

/-- _resolvePolicy: exact enabled match first, then the first enabled
group policy over the groups containing the target, then the enabled
wildcard with both target fields null. -/
def resolvePolicy (policies : List CrossAgentPolicy) (groups : List AgentGroup)
    (sourceId targetId : Nat) : Option CrossAgentPolicy :=
  match policies.find? (fun p =>
      p.sourceAgentId == sourceId && p.targetAgentId == some targetId && p.enabled) with
  | some exact => some exact
  | none =>
      match (groups.filter (fun g => g.agentIds.contains targetId)).findSome? (fun g =>
          policies.find? (fun p =>
            p.sourceAgentId == sourceId && p.targetAgentGroup == some g.name
              && p.enabled)) with
      | some groupPolicy => some groupPolicy
      | none =>
          policies.find? (fun p =>
            p.sourceAgentId == sourceId && p.targetAgentId == none
              && p.targetAgentGroup == none && p.enabled)

/-- Milliseconds in 24 hours (the daily windows of the checks). -/
def msPerDay : Int := 86400000

/-- _checkDailyTargetLimit's aggregate: authorized cross-agent spend
from source to target in the last 24 hours. -/
def dailyTargetSpent (crossTxs : List CrossAgentTransaction) (now : Int)
    (sourceId targetId : Nat) : Rat :=
  (crossTxs.filter (fun t =>
    t.sourceAgentId == sourceId && t.targetAgentId == targetId &&
      decide (now - msPerDay ≤ t.createdAt) && t.authorized)).foldr
    (fun t acc => t.amount + acc) 0

/-- _checkDailyGlobalLimit's aggregate: authorized cross-agent spend
from source to anyone in the last 24 hours. -/
def dailyGlobalSpent (crossTxs : List CrossAgentTransaction) (now : Int)
    (sourceId : Nat) : Rat :=
  (crossTxs.filter (fun t =>
    t.sourceAgentId == sourceId && decide (now - msPerDay ≤ t.createdAt) &&
      t.authorized)).foldr (fun t acc => t.amount + acc) 0

/-- _checkCounterpartyTrust: passes when no minimum is set; otherwise
the settled fraction of all cross-agent transactions targeting the
counterparty must reach the minimum. -/
def counterpartyTrustPasses (crossTxs : List CrossAgentTransaction)
    (policy : CrossAgentPolicy) (targetId : Nat) : Bool :=
  if policy.minCounterpartyTrustScore ≤ 0 then true
  else
    let total := (crossTxs.filter (fun t => t.targetAgentId == targetId)).length
    let settledCount := (crossTxs.filter (fun t =>
      t.targetAgentId == targetId &&
        t.settlementStatus == SettlementStatus.settled)).length
    let score : Rat := if 0 < total then (settledCount : Rat) / (total : Rat) else 0
    decide (policy.minCounterpartyTrustScore ≤ score)

/-- The conjunction of the five checks of authorizeTransaction, in the
source's order; returns true when every check passes. -/
def crossChecksPass (crossTxs : List CrossAgentTransaction) (now : Int)
    (policy : CrossAgentPolicy) (sourceId targetId : Nat) (amount : Rat)
    (paymentType : String) : Bool :=
  policy.allowedPaymentTypes.contains paymentType &&
  decide (amount ≤ policy.maxPerTransaction) &&
  decide (dailyTargetSpent crossTxs now sourceId targetId + amount ≤ policy.maxDailyToTarget) &&
  decide (dailyGlobalSpent crossTxs now sourceId + amount ≤ policy.maxDailyAllAgents) &&
  counterpartyTrustPasses crossTxs policy targetId

/-- _recordTransaction: persist a cross-agent transaction; an
unauthorized one settles as failed, an authorized one settles
immediately only under immediate mode. -/
def recordCrossTransaction (sys : Sys) (now : Int) (sourceId targetId : Nat)
    (amount : Rat) (paymentType : String) (policyId : Option Nat)
    (authorized : Bool) (method : AuthMethod) (settlementMode : Option SettlementMode)
    (requiresHuman : Bool) : Nat × Sys :=
  let txId := sys.nextCrossTxId
  let tx : CrossAgentTransaction :=
    { id := txId, sourceAgentId := sourceId, targetAgentId := targetId,
      amount := amount, paymentType := paymentType, policyId := policyId,
      authorized := authorized, authorizationMethod := method,
      settlementStatus :=
        if authorized then
          if settlementMode == some SettlementMode.immediate then
            SettlementStatus.settled
          else SettlementStatus.pending
        else SettlementStatus.failed,
      requiresHuman := requiresHuman, createdAt := now }
  (txId, { sys with crossTxs := tx :: sys.crossTxs, nextCrossTxId := txId + 1 })

/-- Outcome of CrossAgentGovernor.authorizeTransaction. -/
inductive CrossResult
  | noPolicy (txId : Nat)
  | noMutualPolicy
  | checkFailed (txId : Nat)
  | escalated (txId : Nat)
  | authorized (txId : Nat) (policyId : Nat)
deriving DecidableEq, Repr

/-- CrossAgentGovernor.authorizeTransaction: resolve the most specific
policy (recording an unauthorized, human-required transaction when none
exists), enforce mutuality, run the five checks, escalate above the
human-approval threshold, otherwise authorize and record. -/
def crossAuthorizeTransaction (sys : Sys) (now : Int) (sourceId targetId : Nat)
    (amount : Rat) (paymentType : String) : CrossResult × Sys :=
  match resolvePolicy sys.crossPolicies sys.groups sourceId targetId with
  | none =>
      let p := recordCrossTransaction sys now sourceId targetId amount paymentType
        none false AuthMethod.auto none true
      (CrossResult.noPolicy p.1, p.2)
  | some policy =>
      if policy.requireMutualPolicy &&
          (resolvePolicy sys.crossPolicies sys.groups targetId sourceId).isNone then
        (CrossResult.noMutualPolicy, sys)
      else if !crossChecksPass sys.crossTxs now policy sourceId targetId amount
          paymentType then
        let p := recordCrossTransaction sys now sourceId targetId amount paymentType
          (some policy.id) false AuthMethod.auto none false
        (CrossResult.checkFailed p.1, p.2)
      else if policy.requireHumanApprovalAbove < amount then
        let p := recordCrossTransaction sys now sourceId targetId amount paymentType
          (some policy.id) false AuthMethod.escalated none true
        (CrossResult.escalated p.1, p.2)
      else
        let p := recordCrossTransaction sys now sourceId targetId amount paymentType
          (some policy.id) true AuthMethod.auto (some policy.settlementMode) false
        (CrossResult.authorized p.1 policy.id, p.2)

-- ── Dead-man switch ──────────────────────────────────────────────────

/-- Whether a transaction belongs to the agent (the wallet.agentId join
of the Prisma queries). -/
def txBelongsToAgent (st : St) (agentId : Nat) (t : Transaction) : Bool :=
  ((st.wallets.find? (fun w => w.id == t.walletId)).map Wallet.agentId) == some agentId

/-- The in-process transaction-timestamp window of an agent. -/
def lookupWindow (ws : List (Nat × List Int)) (a : Nat) : List Int :=
  ((ws.find? (fun p => p.1 == a)).map Prod.snd).getD []

/-- Replace an agent's in-process timestamp window. -/
def setWindow (ws : List (Nat × List Int)) (a : Nat) (w : List Int) :
    List (Nat × List Int) :=
  (a, w) :: ws.filter (fun p => p.1 != a)

/-- _trigger: apply the configured action (alert is notification only;
throttle multiplies the agent's active daily limits by one tenth;
freeze and terminate add the agent — and, when cascade is configured,
its direct lineage children — to the frozen set and update statuses),
then record the dead-man event listing the cascaded ids. -/
def dmsTrigger (sys : Sys) (agentId : Nat) (tt : DmsTriggerType)
    (action : DmsAction) (config : Option DmsConfig) : Sys :=
  let cascade := (config.map DmsConfig.cascadeToChildren).getD false
  let children := childrenOf sys agentId
  let cascaded := if cascade then children else []
  let sys' :=
    match action with
    | DmsAction.alert => sys
    | DmsAction.throttle =>
        let agentWalletIds :=
          (sys.st.wallets.filter (fun (w : Wallet) => w.agentId == agentId)).map Wallet.id
        { sys with st := { sys.st with rules := sys.st.rules.map (fun (r : SpendRule) =>
            if agentWalletIds.contains r.walletId &&
                r.ruleType == RuleType.DAILY_LIMIT && r.active then
              { r with parameters :=
                  { r.parameters with
                    limit := some (jsOr r.parameters.limit 1000 * (1 / 10)) } }
            else r) } }
    | DmsAction.freeze =>
        { sys with
          frozenAgents := (agentId :: cascaded) ++ sys.frozenAgents,
          agents := sys.agents.map (fun (a : Agent) =>
            if a.id == agentId || cascaded.contains a.id then
              { a with status := AgentStatus.FROZEN }
            else a) }
    | DmsAction.terminate =>
        { sys with
          frozenAgents := (agentId :: cascaded) ++ sys.frozenAgents,
          agents := sys.agents.map (fun (a : Agent) =>
            if a.id == agentId || cascaded.contains a.id then
              { a with status := AgentStatus.TERMINATED }
            else a),
          lineages := sys.lineages.map (fun (l : Lineage) =>
            if l.agentId == agentId then
              { l with status := LineageStatus.terminated }
            else l) }
  { sys' with dmsEvents :=
      { agentId := agentId, triggerType := tt, actionTaken := action,
        cascadedTo := if action == DmsAction.freeze || action == DmsAction.terminate
          then cascaded else [], resolved := false } :: sys'.dmsEvents }

/-- _getHistoricalAverage: the mean of the agent's completed spend over
the seven preceding equal-width windows, averaging only over the
non-empty ones (zero when all are empty). -/
def dmsHistoricalAverage (sys : Sys) (now : Int) (agentId : Nat)
    (windowMinutes : Int) : Rat :=
  let windowMs := windowMinutes * msPerMinute
  let totals := (List.range 7).map (fun i =>
    let k : Int := (i : Int) + 1
    let e := now - windowMs * k
    let s := now - windowMs * (k + 1)
    (sys.st.transactions.filter (fun t =>
      txBelongsToAgent sys.st agentId t && decide (s ≤ t.createdAt) &&
        decide (t.createdAt ≤ e) &&
        t.status == TxStatus.COMPLETED)).foldr (fun t acc => t.amount + acc) 0)
  if totals.all (fun t => t == 0) then 0
  else (totals.foldr (· + ·) 0) /
    (((totals.filter (fun t => decide ((0 : Rat) < t))).length : Rat))

/-- Result of the dead-man transaction gate (reason strings dropped). -/
structure DmsEvalResult where
  allow : Bool
deriving DecidableEq, Repr

/-- DeadManSwitch.evaluateTransaction: frozen-set hard stop; with no
config, or a disabled one, allow with no further checks; otherwise
velocity, vendor-diversity and spend-anomaly gates, finally recording
the timestamp in the in-process window (trimmed to the last hour). -/
def dmsEvaluateTransaction (sys : Sys) (now : Int) (agentId : Nat) (amount : Rat)
    (vendor : Option String) : DmsEvalResult × Sys :=
  if sys.frozenAgents.contains agentId then ({ allow := false }, sys)
  else
    match sys.dmsConfigs.find? (fun c => c.agentId == agentId) with
    | none => ({ allow := true }, sys)
    | some config =>
        if !config.enabled then ({ allow := true }, sys)
        else
          let window := lookupWindow sys.txWindows agentId
          let recentCount :=
            (window.filter (fun ts => decide (now - msPerMinute < ts))).length
          if config.maxTxPerMinute ≤ recentCount then
            ({ allow := false },
              dmsTrigger sys agentId DmsTriggerType.velocity config.onAnomaly
                (some config))
          else
            let vendorBlocked :=
              match vendor with
              | none => false
              | some v =>
                  let vs := (sys.st.transactions.filter (fun (t : Transaction) =>
                    txBelongsToAgent sys.st agentId t &&
                      decide (now - msPerHour ≤ t.createdAt) &&
                      t.description.isSome)).map (fun (t : Transaction) => t.description.getD v)
                  decide (config.maxUniqueVendorsPerHour < (vs ++ [v]).dedup.length)
            if vendorBlocked then
              ({ allow := false },
                dmsTrigger sys agentId DmsTriggerType.velocity config.onAnomaly
                  (some config))
            else
              let windowStart := now - config.anomalyWindowMinutes * msPerMinute
              let recentSpend := (sys.st.transactions.filter (fun (t : Transaction) =>
                txBelongsToAgent sys.st agentId t &&
                  decide (windowStart ≤ t.createdAt) &&
                  t.status == TxStatus.COMPLETED)).foldr
                (fun (t : Transaction) acc => t.amount + acc) 0
              let currentTotal := recentSpend + amount
              let hist := dmsHistoricalAverage sys now agentId
                config.anomalyWindowMinutes
              let anomalyFired :=
                decide ((0 : Rat) < hist) &&
                  decide (hist * config.anomalySpendMul < currentTotal)
              let sys₁ :=
                if anomalyFired then
                  dmsTrigger sys agentId DmsTriggerType.anomaly config.onAnomaly
                    (some config)
                else sys
              if anomalyFired && (config.onAnomaly == DmsAction.freeze ||
                  config.onAnomaly == DmsAction.terminate) then
                ({ allow := false }, sys₁)
              else
                let newWindow :=
                  (window ++ [now]).filter (fun ts => decide (now - msPerHour < ts))
                ({ allow := true },
                  { sys₁ with txWindows := setWindow sys₁.txWindows agentId newWindow })

-- ── Coinbase adapter: sendTransaction ────────────────────────────────

/-- Payment type substituted when the adapter's purpose is empty. -/
def transferPaymentType : String := "transfer"

/-- Outcome of CoinbaseAgenticWalletAdapter.sendTransaction. -/
inductive SendResult
  | blockedByKillSwitch
  | noWallet
  | blockedByPolicy
  | blockedByCrossAgent
  | noCoinbaseWallet
  | railFailed
  | success (txId : Nat)
deriving DecidableEq, Repr

/-- Whether a cross-agent authorization outcome is the authorized one. -/
def crossResultAuthorized : CrossResult → Bool
  | CrossResult.authorized _ _ => true
  | _ => false

/-- sendTransaction: dead-man gate (no vendor is passed), rules-engine
gate on the agent's first wallet, cross-agent gate when the destination
address belongs to a known agent, then the rail call (an oracle input)
and the completed-transaction record. -/
def sendTransaction (sys : Sys) (clock : Clock) (agentId : Nat) (toAddress : String)
    (amount : Rat) (purpose : Option String) (railOk : Bool) : SendResult × Sys :=
  let d := dmsEvaluateTransaction sys clock.now agentId amount none
  if !d.1.allow then (SendResult.blockedByKillSwitch, d.2)
  else
    let agent := d.2.agents.find? (fun a => a.id == agentId)
    match d.2.st.wallets.filter (fun w => w.agentId == agentId) with
    | [] => (SendResult.noWallet, d.2)
    | wallet :: _ =>
        let p := rulesEvaluateTransaction d.2.st clock wallet.id
          { amount := amount, category := purpose, recipientId := some toAddress }
        let sys₂ := { d.2 with st := p.2 }
        if !p.1.approved then (SendResult.blockedByPolicy, sys₂)
        else
          let crossStep :=
            match sys₂.agents.find? (fun a => a.walletAddress == some toAddress) with
            | none => (true, sys₂)
            | some target =>
                let c := crossAuthorizeTransaction sys₂ clock.now agentId target.id
                  amount (purpose.getD transferPaymentType)
                (crossResultAuthorized c.1, c.2)
          if !crossStep.1 then (SendResult.blockedByCrossAgent, crossStep.2)
          else
            let sys₃ := crossStep.2
            if !(((agent.map Agent.coinbaseLinked).getD false)) then
              (SendResult.noCoinbaseWallet, sys₃)
            else if !railOk then (SendResult.railFailed, sys₃)
            else
              let txId := sys₃.st.nextTxId
              let tx : Transaction :=
                { id := txId, walletId := wallet.id, amount := amount,
                  recipientId := some toAddress, description := purpose,
                  status := TxStatus.COMPLETED, createdAt := clock.now }
              (SendResult.success txId,
                { sys₃ with st := { sys₃.st with
                    transactions := tx :: sys₃.st.transactions,
                    nextTxId := txId + 1 } })

-- ── Stripe x402 proxy: the 402 payment branch ────────────────────────

/-- JS string-or: the default replaces a missing or empty string. -/
def jsOrStr (s : Option String) (d : String) : String :=
  match s with
  | some v => if v == "" then d else v
  | none => d

/-- Category the x402 proxy passes to the rules engine. -/
def x402Category : String := "x402_service_payment"

/-- Outcome of StripeX402Proxy.request once a 402 response arrives. -/
inductive X402Result
  | blockedByKillSwitch
  | noWallet
  | blockedByPolicy (requiresHuman : Bool)
  | serviceNotAllowed
  | stripeFailed
  | paid (txId : Nat)
deriving DecidableEq, Repr

/-- StripeX402Proxy.request, 402 branch: the dead-man gate on (agent,
amount, vendor) runs first; then the rules gate on the agent's first
wallet with category x402_service_payment and the vendor as recipient;
then the service allowlist and the Stripe payment call (both
environment inputs); finally the COMPLETED transaction record.  The
HTTP legs and the x402 parsing around this branch are the proxy's
environment. -/
def x402HandlePayment (sys : Sys) (clock : Clock) (agentId : Nat) (amount : Rat)
    (vendor : String) (description : Option String)
    (serviceAllowed stripeOk : Bool) : X402Result × Sys :=
  let d := dmsEvaluateTransaction sys clock.now agentId amount (some vendor)
  if !d.1.allow then (X402Result.blockedByKillSwitch, d.2)
  else
    match d.2.st.wallets.filter (fun w => w.agentId == agentId) with
    | [] => (X402Result.noWallet, d.2)
    | wallet :: _ =>
        let p := rulesEvaluateTransaction d.2.st clock wallet.id
          { amount := amount, category := some x402Category,
            recipientId := some vendor }
        let sys₂ := { d.2 with st := p.2 }
        if !p.1.approved then
          (X402Result.blockedByPolicy p.1.requiresApproval, sys₂)
        else if !serviceAllowed then (X402Result.serviceNotAllowed, sys₂)
        else if !stripeOk then (X402Result.stripeFailed, sys₂)
        else
          let txId := sys₂.st.nextTxId
          let tx : Transaction :=
            { id := txId, walletId := wallet.id, amount := amount,
              recipientId := some vendor,
              description :=
                some (jsOrStr description ("x402 payment to " ++ vendor)),
              status := TxStatus.COMPLETED, createdAt := clock.now }
          (X402Result.paid txId,
            { sys₂ with st := { sys₂.st with
                transactions := tx :: sys₂.st.transactions,
                nextTxId := txId + 1 } })

-- ── Spec-side definitions for refinement comparison ─────────────────

/-- Category name of deposit transactions. -/
def depositCategory : String := "deposit"

/-- Modelled from the spec: the sentence "spend(wallet, since) sums
amount over Completed non-deposit transactions with createdAt ≥ since";
this is the aggregate the spec describes, to be compared against the
source's getSpendSince. -/
def spendSinceSpecified (txs : List Transaction) (walletId : Nat) (since : Int) : Rat :=
  (txs.filter (fun t =>
    t.walletId == walletId && t.status == TxStatus.COMPLETED &&
      decide (since ≤ t.createdAt) &&
      !(t.category == some depositCategory))).foldr (fun t acc => t.amount + acc) 0

/-- The completed deposit volume in the window: the part of the
source's aggregate the spec excludes. -/
def depositSpendSince (txs : List Transaction) (walletId : Nat) (since : Int) : Rat :=
  (txs.filter (fun t =>
    t.walletId == walletId && t.status == TxStatus.COMPLETED &&
      decide (since ≤ t.createdAt) &&
      t.category == some depositCategory)).foldr (fun t acc => t.amount + acc) 0

-- ── Observation helpers ──────────────────────────────────────────────

/-- Balance of a wallet in a state, when the wallet exists. -/
def walletBalance (st : St) (walletId : Nat) : Option Rat :=
  ((st.wallets.find? (fun w => w.id == walletId)).map Wallet.balance)

/-- Status of a wallet in a state, when the wallet exists. -/
def walletStatusIn (st : St) (walletId : Nat) : Option WalletStatus :=
  ((st.wallets.find? (fun w => w.id == walletId)).map Wallet.status)

/-- Status of a persisted transaction, when it exists. -/
def txStatusIn (st : St) (txId : Nat) : Option TxStatus :=
  ((st.transactions.find? (fun t => t.id == txId)).map Transaction.status)

/-- completedAt of a persisted transaction, when it exists. -/
def txCompletedAtIn (st : St) (txId : Nat) : Option (Option Int) :=
  ((st.transactions.find? (fun t => t.id == txId)).map Transaction.completedAt)

/-- Status of an agent in the combined state, when it exists. -/
def agentStatusIn (sys : Sys) (agentId : Nat) : Option AgentStatus :=
  ((sys.agents.find? (fun a => a.id == agentId)).map Agent.status)

-- ── Auxiliary lemmas: rule loop and priority sort ────────────────────

/-- The result entry the engine records for one rule. -/
def mkRuleResult (clock : Clock) (txs : List Transaction) (walletId : Nat)
    (req : TxRequest) (rule : SpendRule) : RuleCheckResult :=
  { ruleId := rule.id, ruleType := rule.ruleType,
    passed := (evaluateRule clock txs walletId req rule).passed,
    requiresApproval := (evaluateRule clock txs walletId req rule).requiresApproval }

/-- Closed form of the evaluation loop: one entry per rule in order,
approved is the conjunction of the passed flags, requiresApproval the
disjunction of the raised flags. -/
theorem runRules_eq (clock : Clock) (txs : List Transaction) (walletId : Nat)
    (req : TxRequest) :
    ∀ (rules : List SpendRule) (approved reqApp : Bool) (acc : List RuleCheckResult),
    runRules clock txs walletId req rules approved reqApp acc =
      { approved := approved &&
          (rules.map (mkRuleResult clock txs walletId req)).all (fun r => r.passed),
        requiresApproval := reqApp ||
          (rules.map (mkRuleResult clock txs walletId req)).any (fun r => r.requiresApproval),
        killSwitched := false,
        results := acc.reverse ++ rules.map (mkRuleResult clock txs walletId req) } := by
  intro rules
  induction rules with
  | nil => intro a b acc; simp [runRules]
  | cons rule rest ih =>
      intro a b acc
      rw [runRules, ih]
      simp only [List.map_cons, List.all_cons, List.any_cons, List.reverse_cons,
        List.append_assoc, List.cons_append, List.nil_append, mkRuleResult]
      cases h1 : (evaluateRule clock txs walletId req rule).passed <;>
        cases h2 : (evaluateRule clock txs walletId req rule).requiresApproval <;>
          simp [h1, h2]

/-- Inserting into the priority-descending order is a permutation. -/
theorem insertByPriority_perm (r : SpendRule) (l : List SpendRule) :
    (insertByPriority r l).Perm (r :: l) := by
  induction l with
  | nil => simp [insertByPriority]
  | cons x xs ih =>
      rw [insertByPriority]
      by_cases h : x.priority < r.priority
      · simp [h]
      · simp only [if_neg h]
        exact (ih.cons x).trans (List.Perm.swap r x xs)

/-- The priority sort is a permutation. -/
theorem sortByPriorityDesc_perm (l : List SpendRule) :
    (sortByPriorityDesc l).Perm l := by
  induction l with
  | nil => simp [sortByPriorityDesc]
  | cons x xs ih =>
      rw [sortByPriorityDesc]
      exact (insertByPriority_perm x (sortByPriorityDesc xs)).trans (ih.cons x)

/-- Membership through priority insertion. -/
theorem mem_insertByPriority {y r : SpendRule} {l : List SpendRule} :
    y ∈ insertByPriority r l ↔ y = r ∨ y ∈ l := by
  rw [(insertByPriority_perm r l).mem_iff]
  simp

/-- Priority insertion preserves the descending order. -/
theorem insertByPriority_sorted (r : SpendRule) (l : List SpendRule)
    (h : l.Pairwise (fun a b => b.priority ≤ a.priority)) :
    (insertByPriority r l).Pairwise (fun a b => b.priority ≤ a.priority) := by
  induction l with
  | nil => simp [insertByPriority]
  | cons x xs ih =>
      rw [insertByPriority]
      rcases List.pairwise_cons.mp h with ⟨hx, hxs⟩
      by_cases hcmp : x.priority < r.priority
      · rw [if_pos hcmp]
        refine List.pairwise_cons.mpr ⟨?_, h⟩
        intro y hy
        rcases List.mem_cons.mp hy with rfl | hy'
        · exact le_of_lt hcmp
        · exact le_trans (hx y hy') (le_of_lt hcmp)
      · rw [if_neg hcmp]
        refine List.pairwise_cons.mpr ⟨?_, ih hxs⟩
        intro y hy
        rcases mem_insertByPriority.mp hy with rfl | hy'
        · exact le_of_not_lt hcmp
        · exact hx y hy'

/-- The engine receives the rules in descending priority order. -/
theorem sortByPriorityDesc_sorted (l : List SpendRule) :
    (sortByPriorityDesc l).Pairwise (fun a b => b.priority ≤ a.priority) := by
  induction l with
  | nil => simp [sortByPriorityDesc]
  | cons x xs ih => exact insertByPriority_sorted x _ ih

-- ── Auxiliary lemmas: kill-switch pre-check ──────────────────────────

theorem find?_map_of_pred_preserved {α : Type} (f : α → α) (p : α → Bool)
    (hpres : ∀ x, p (f x) = p x) (l : List α) :
    (l.map f).find? p = (l.find? p).map f := by
  induction l with
  | nil => rfl
  | cons x xs ih =>
      simp only [List.map_cons]
      by_cases hx : p x = true
      · rw [List.find?_cons_of_pos _ (by rw [hpres]; exact hx),
          List.find?_cons_of_pos _ hx]
        rfl
      · rw [List.find?_cons_of_neg _ (by rw [hpres]; simpa using hx),
          List.find?_cons_of_neg _ (by simpa using hx)]
        exact ih

theorem walletBalance_latchSwitch (st : St) (clock : Clock) (walletId ksId : Nat)
    (v : Option Rat) (wid : Nat) :
    walletBalance (latchSwitch st clock walletId ksId v) wid = walletBalance st wid := by
  simp only [walletBalance, latchSwitch]
  rw [find?_map_of_pred_preserved _ _
    (fun w => by by_cases h : (w.id == walletId) = true <;> simp [h])]
  cases hf : st.wallets.find? (fun w => w.id == wid) with
  | none => rfl
  | some w0 =>
      show some _ = some w0.balance
      congr 1
      by_cases h : (w0.id == walletId) = true <;> simp [h]

theorem latchSwitch_fields (st : St) (clock : Clock) (walletId ksId : Nat)
    (v : Option Rat) :
    (latchSwitch st clock walletId ksId v).transactions = st.transactions ∧
    (latchSwitch st clock walletId ksId v).rules = st.rules ∧
    (latchSwitch st clock walletId ksId v).nextTxId = st.nextTxId := by
  simp [latchSwitch]

theorem checkSwitchList_fields (st : St) (clock : Clock) (walletId : Nat) :
    ∀ l : List KillSwitch,
    (checkSwitchList st clock walletId l).2.transactions = st.transactions ∧
    (checkSwitchList st clock walletId l).2.rules = st.rules ∧
    (checkSwitchList st clock walletId l).2.nextTxId = st.nextTxId := by
  intro l
  induction l with
  | nil => simp [checkSwitchList]
  | cons ks rest ih =>
      rw [checkSwitchList]
      by_cases h1 : (ks.triggered && ks.resetAt == none) = true
      · simp [h1]
      · rw [if_neg h1]
        by_cases h2 : (evalKSCondition st clock walletId ks).trigger = true
        · simp [h2, latchSwitch]
        · simp only [h2, Bool.false_eq_true, if_false]
          exact ih

theorem walletBalance_checkSwitchList (st : St) (clock : Clock) (walletId : Nat)
    (wid : Nat) :
    ∀ l : List KillSwitch,
    walletBalance (checkSwitchList st clock walletId l).2 wid = walletBalance st wid := by
  intro l
  induction l with
  | nil => simp [checkSwitchList]
  | cons ks rest ih =>
      rw [checkSwitchList]
      by_cases h1 : (ks.triggered && ks.resetAt == none) = true
      · simp [h1]
      · rw [if_neg h1]
        by_cases h2 : (evalKSCondition st clock walletId ks).trigger = true
        · simp [h2, walletBalance_latchSwitch]
        · simp only [h2, Bool.false_eq_true, if_false]
          exact ih

theorem checkSwitchList_not_triggered (st : St) (clock : Clock) (walletId : Nat) :
    ∀ l : List KillSwitch,
    (checkSwitchList st clock walletId l).1.triggered = false →
    (checkSwitchList st clock walletId l).2 = st := by
  intro l
  induction l with
  | nil => intro _; simp [checkSwitchList]
  | cons ks rest ih =>
      rw [checkSwitchList]
      by_cases h1 : (ks.triggered && ks.resetAt == none) = true
      · simp [h1]
      · rw [if_neg h1]
        by_cases h2 : (evalKSCondition st clock walletId ks).trigger = true
        · simp [h2]
        · simp only [h2, Bool.false_eq_true, if_false]
          exact ih

theorem checkSwitchList_triggered_of_latched (st : St) (clock : Clock) (walletId : Nat) :
    ∀ (l : List KillSwitch) (ks : KillSwitch), ks ∈ l → ks.triggered = true →
    ks.resetAt = none →
    (checkSwitchList st clock walletId l).1.triggered = true := by
  intro l
  induction l with
  | nil => intro ks h; simp at h
  | cons x rest ih =>
      intro ks hmem htrig hreset
      rw [checkSwitchList]
      by_cases h1 : (x.triggered && x.resetAt == none) = true
      · simp [h1]
      · rw [if_neg h1]
        by_cases h2 : (evalKSCondition st clock walletId x).trigger = true
        · simp [h2]
        · simp only [h2, Bool.false_eq_true, if_false]
          rcases List.mem_cons.mp hmem with rfl | hmem'
          · exact absurd (by simp [htrig, hreset]) h1
          · exact ih ks hmem' htrig hreset

theorem checkSwitchList_audit (st : St) (clock : Clock) (walletId : Nat) :
    ∀ l : List KillSwitch,
    (checkSwitchList st clock walletId l).2.auditLog = st.auditLog ∨
    ∃ a : AuditEntry, (checkSwitchList st clock walletId l).2.auditLog = a :: st.auditLog ∧
      a.action = AuditAction.KILL_SWITCH_TRIGGERED ∧
      a.decision = AuditDecision.BLOCKED ∧ a.resourceId = walletId := by
  intro l
  induction l with
  | nil => left; simp [checkSwitchList]
  | cons ks rest ih =>
      rw [checkSwitchList]
      by_cases h1 : (ks.triggered && ks.resetAt == none) = true
      · left; simp [h1]
      · rw [if_neg h1]
        by_cases h2 : (evalKSCondition st clock walletId ks).trigger = true
        · right
          exact ⟨latchAuditEntry st walletId, by simp [h2, latchSwitch], rfl, rfl, rfl⟩
        · simp only [h2, Bool.false_eq_true, if_false]
          exact ih

theorem checkSwitchList_keeps_latched (st : St) (clock : Clock) (walletId : Nat) :
    ∀ (l : List KillSwitch) (ks : KillSwitch), ks ∈ st.killSwitches →
    ks.triggered = true → ks.resetAt = none →
    ∃ ks' ∈ (checkSwitchList st clock walletId l).2.killSwitches,
      ks'.walletId = ks.walletId ∧ ks'.active = ks.active ∧
      ks'.triggered = true ∧ ks'.resetAt = none := by
  intro l
  induction l with
  | nil =>
      intro ks hmem htrig hreset
      exact ⟨ks, by simpa [checkSwitchList] using hmem, rfl, rfl, htrig, hreset⟩
  | cons x rest ih =>
      intro ks hmem htrig hreset
      rw [checkSwitchList]
      by_cases h1 : (x.triggered && x.resetAt == none) = true
      · exact ⟨ks, by simpa [h1] using hmem, rfl, rfl, htrig, hreset⟩
      · rw [if_neg h1]
        by_cases h2 : (evalKSCondition st clock walletId x).trigger = true
        · simp only [h2, if_true, latchSwitch]
          refine ⟨_, List.mem_map_of_mem _ hmem, ?_⟩
          by_cases hid : (ks.id == x.id) = true <;> simp [hid, htrig, hreset]
        · simp only [h2, Bool.false_eq_true, if_false]
          exact ih ks hmem htrig hreset



-- ── Auxiliary lemmas: the admission path ─────────────────────────────

theorem walletBalance_admissionEvaluation (st : St) (clock : Clock) (req : SubmitRequest) :
    walletBalance (admissionEvaluation st clock req).2 req.walletId =
      walletBalance st req.walletId := by
  simp only [admissionEvaluation, rulesEvaluateTransaction, checkKillSwitch]
  split <;> exact walletBalance_checkSwitchList st clock req.walletId req.walletId _

theorem admissionEvaluation_nextTxId (st : St) (clock : Clock) (req : SubmitRequest) :
    (admissionEvaluation st clock req).2.nextTxId = st.nextTxId := by
  simp only [admissionEvaluation, rulesEvaluateTransaction, checkKillSwitch]
  split <;> exact (checkSwitchList_fields st clock req.walletId _).2.2

/-- Shared facts of the three precondition checks of the admission
route, bundled so each outcome lemma can discharge them. -/
theorem submit_guards (req : SubmitRequest) (w : Wallet)
    (hamt : 0 < req.amount) (hbal : req.amount ≤ w.balance) :
    ¬ (req.amount == 0) = true ∧ ¬ req.amount ≤ 0 ∧ ¬ w.balance < req.amount := by
  refine ⟨?_, not_le.mpr hamt, not_lt.mpr hbal⟩
  simp only [beq_iff_eq]
  intro h
  rw [h] at hamt
  exact lt_irrefl 0 hamt

/-- The rejected outcome of the admission path. -/
theorem submit_rejected_core (st : St) (clock : Clock) (req : SubmitRequest)
    (w : Wallet)
    (hw : st.wallets.find? (fun x => x.id == req.walletId) = some w)
    (hact : w.status = WalletStatus.ACTIVE)
    (hamt : 0 < req.amount)
    (hbal : req.amount ≤ w.balance)
    (happr : (admissionEvaluation st clock req).1.approved = false) :
    (submitTransaction st clock req).1 =
      SubmitResult.rejected st.nextTxId (admissionEvaluation st clock req).1 ∧
    txStatusIn (submitTransaction st clock req).2 st.nextTxId =
      some TxStatus.REJECTED ∧
    walletBalance (submitTransaction st clock req).2 req.walletId = some w.balance ∧
    (submitTransaction st clock req).2.killSwitches =
      (admissionEvaluation st clock req).2.killSwitches := by
  obtain ⟨hz, hle, hlt⟩ := submit_guards req w hamt hbal
  have hnx := admissionEvaluation_nextTxId st clock req
  have hwb : walletBalance (admissionEvaluation st clock req).2 req.walletId =
      some w.balance := by
    rw [walletBalance_admissionEvaluation]
    simp only [walletBalance, hw, Option.map_some']
  unfold submitTransaction
  rw [if_neg hz, if_neg hle, hw]
  simp only [hact, ne_eq, not_true_eq_false, if_false, if_neg hlt, happr,
    Bool.not_false, if_true, hnx]
  refine ⟨by simp [happr], ?_, ?_, by simp [happr]⟩
  · simp [txStatusIn, happr, hnx]
  · simpa [walletBalance, happr] using hwb

/-- The awaiting-approval outcome of the admission path. -/
theorem submit_awaiting_core (st : St) (clock : Clock) (req : SubmitRequest)
    (w : Wallet)
    (hw : st.wallets.find? (fun x => x.id == req.walletId) = some w)
    (hact : w.status = WalletStatus.ACTIVE)
    (hamt : 0 < req.amount)
    (hbal : req.amount ≤ w.balance)
    (happr : (admissionEvaluation st clock req).1.approved = true)
    (hreq : (admissionEvaluation st clock req).1.requiresApproval = true) :
    (submitTransaction st clock req).1 =
      SubmitResult.awaitingApproval st.nextTxId (admissionEvaluation st clock req).1 ∧
    txStatusIn (submitTransaction st clock req).2 st.nextTxId =
      some TxStatus.AWAITING_APPROVAL ∧
    walletBalance (submitTransaction st clock req).2 req.walletId = some w.balance := by
  obtain ⟨hz, hle, hlt⟩ := submit_guards req w hamt hbal
  have hnx := admissionEvaluation_nextTxId st clock req
  have hwb : walletBalance (admissionEvaluation st clock req).2 req.walletId =
      some w.balance := by
    rw [walletBalance_admissionEvaluation]
    simp only [walletBalance, hw, Option.map_some']
  unfold submitTransaction
  rw [if_neg hz, if_neg hle, hw]
  simp only [hact, ne_eq, not_true_eq_false, if_false, if_neg hlt, happr, hreq,
    Bool.not_true, hnx]
  refine ⟨by simp, ?_, ?_⟩
  · simp [txStatusIn, hnx]
  · simpa [walletBalance] using hwb

/-- The fully-approved outcome of the admission path: immediate
execution with balance decrement and completion stamp. -/
theorem submit_completed_core (st : St) (clock : Clock) (req : SubmitRequest)
    (w : Wallet)
    (hw : st.wallets.find? (fun x => x.id == req.walletId) = some w)
    (hact : w.status = WalletStatus.ACTIVE)
    (hamt : 0 < req.amount)
    (hbal : req.amount ≤ w.balance)
    (happr : (admissionEvaluation st clock req).1.approved = true)
    (hreq : (admissionEvaluation st clock req).1.requiresApproval = false) :
    (submitTransaction st clock req).1 =
      SubmitResult.completed st.nextTxId (admissionEvaluation st clock req).1 ∧
    txStatusIn (submitTransaction st clock req).2 st.nextTxId =
      some TxStatus.COMPLETED ∧
    txCompletedAtIn (submitTransaction st clock req).2 st.nextTxId =
      some (some clock.now) ∧
    walletBalance (submitTransaction st clock req).2 req.walletId =
      some (w.balance - req.amount) := by
  obtain ⟨hz, hle, hlt⟩ := submit_guards req w hamt hbal
  have hnx := admissionEvaluation_nextTxId st clock req
  have hwb : walletBalance (admissionEvaluation st clock req).2 req.walletId =
      some w.balance := by
    rw [walletBalance_admissionEvaluation]
    simp only [walletBalance, hw, Option.map_some']
  unfold submitTransaction
  rw [if_neg hz, if_neg hle, hw]
  simp only [hact, ne_eq, not_true_eq_false, if_false, if_neg hlt, happr, hreq,
    Bool.not_true, hnx]
  simp only [Bool.false_eq_true, if_false, beq_self_eq_true, if_true]
  refine ⟨by simp, ?_, ?_, ?_⟩
  · simp [txStatusIn, executeTransaction, hnx]
  · simp [txCompletedAtIn, executeTransaction, hnx]
  · obtain ⟨x, hx, hxbal⟩ : ∃ x, (admissionEvaluation st clock req).2.wallets.find?
        (fun y => y.id == req.walletId) = some x ∧ x.balance = w.balance := by
      have h := hwb
      unfold walletBalance at h
      cases hf : (admissionEvaluation st clock req).2.wallets.find?
          (fun y => y.id == req.walletId) with
      | none => rw [hf] at h; simp at h
      | some x => rw [hf] at h; simp at h; exact ⟨x, rfl, h⟩
    have hxid : (x.id == req.walletId) = true := by
      have h2 := List.find?_some hx
      simpa using h2
    simp only [executeTransaction]
    rw [List.find?_cons_of_pos _ (by simp)]
    simp only [walletBalance]
    rw [find?_map_of_pred_preserved _ _
      (fun y => by by_cases hy : (y.id == req.walletId) = true <;> simp [hy])]
    rw [hx]
    simp only [Option.map_some']
    congr 1
    simp only [hxid, if_true]
    rw [hxbal]

/-- C1: for every admission whose preconditions hold, the final status
follows the rules verdict: not approved gives a persisted REJECTED
transaction without a balance change; approved with the approval flag
gives AWAITING_APPROVAL without a balance change; and otherwise the
balance is decremented by exactly the amount and the transaction ends
COMPLETED with completedAt set to the evaluation instant. -/
theorem C1_admission_final_status (st : St) (clock : Clock) (req : SubmitRequest)
    (w : Wallet)
    (hw : st.wallets.find? (fun x => x.id == req.walletId) = some w)
    (hact : w.status = WalletStatus.ACTIVE)
    (hamt : 0 < req.amount)
    (hbal : req.amount ≤ w.balance) :
    ((admissionEvaluation st clock req).1.approved = false →
      (submitTransaction st clock req).1 =
        SubmitResult.rejected st.nextTxId (admissionEvaluation st clock req).1 ∧
      txStatusIn (submitTransaction st clock req).2 st.nextTxId =
        some TxStatus.REJECTED ∧
      walletBalance (submitTransaction st clock req).2 req.walletId =
        some w.balance) ∧
    ((admissionEvaluation st clock req).1.approved = true →
      (admissionEvaluation st clock req).1.requiresApproval = true →
      (submitTransaction st clock req).1 =
        SubmitResult.awaitingApproval st.nextTxId (admissionEvaluation st clock req).1 ∧
      txStatusIn (submitTransaction st clock req).2 st.nextTxId =
        some TxStatus.AWAITING_APPROVAL ∧
      walletBalance (submitTransaction st clock req).2 req.walletId =
        some w.balance) ∧
    ((admissionEvaluation st clock req).1.approved = true →
      (admissionEvaluation st clock req).1.requiresApproval = false →
      (submitTransaction st clock req).1 =
        SubmitResult.completed st.nextTxId (admissionEvaluation st clock req).1 ∧
      txStatusIn (submitTransaction st clock req).2 st.nextTxId =
        some TxStatus.COMPLETED ∧
      txCompletedAtIn (submitTransaction st clock req).2 st.nextTxId =
        some (some clock.now) ∧
      walletBalance (submitTransaction st clock req).2 req.walletId =
        some (w.balance - req.amount)) := by
  refine ⟨?_, ?_, ?_⟩
  · intro happr
    obtain ⟨h1, h2, h3, _⟩ := submit_rejected_core st clock req w hw hact hamt hbal happr
    exact ⟨h1, h2, h3⟩
  · intro happr hreq
    exact submit_awaiting_core st clock req w hw hact hamt hbal happr hreq
  · intro happr hreq
    exact submit_completed_core st clock req w hw hact hamt hbal happr hreq

-- ── Concrete fixtures ────────────────────────────────────────────────

/-- A fixed wall clock for the closed examples. -/
def clock0 : Clock :=
  { now := 1000000, startOfDay := 500000, startOfWeek := 0, startOfMonth := 0,
    currentHourUTC := 12 }

/-- An active wallet holding 100. -/
def wallet0 : Wallet := { id := 1, agentId := 1, balance := 100 }

/-- A minimal state: one active wallet, no rules, no switches. -/
def st0 : St :=
  { wallets := [wallet0], transactions := [], rules := [], killSwitches := [],
    auditLog := [], nextTxId := 0 }

/-- A spend of 10 from the wallet. -/
def req0 : SubmitRequest := { walletId := 1, amount := 10 }

/-- Witness for C1: on the minimal state the admission completes, stamps
completedAt, and debits the balance from 100 to 90. -/
theorem C1_admission_final_status_witness :
    st0.wallets.find? (fun x => x.id == req0.walletId) = some wallet0 ∧
    wallet0.status = WalletStatus.ACTIVE ∧
    0 < req0.amount ∧ req0.amount ≤ wallet0.balance ∧
    ((submitTransaction st0 clock0 req0).1 =
        SubmitResult.completed st0.nextTxId (admissionEvaluation st0 clock0 req0).1 ∧
      txStatusIn (submitTransaction st0 clock0 req0).2 st0.nextTxId =
        some TxStatus.COMPLETED ∧
      txCompletedAtIn (submitTransaction st0 clock0 req0).2 st0.nextTxId =
        some (some clock0.now) ∧
      walletBalance (submitTransaction st0 clock0 req0).2 req0.walletId =
        some (wallet0.balance - req0.amount)) :=
  ⟨rfl, rfl, by norm_num [req0], by norm_num [req0, wallet0],
    (C1_admission_final_status st0 clock0 req0 wallet0 rfl rfl
        (by norm_num [req0]) (by norm_num [req0, wallet0])).2.2
      (by simp [admissionEvaluation, rulesEvaluateTransaction, checkKillSwitch,
        checkSwitchList, st0, activeRules, sortByPriorityDesc, runRules])
      (by simp [admissionEvaluation, rulesEvaluateTransaction, checkKillSwitch,
        checkSwitchList, st0, activeRules, sortByPriorityDesc, runRules])⟩


-- ── C2: the rolling spend aggregate ─────────────────────────────────

/-- C2 (amended): the rolling spend aggregate sums every COMPLETED
transaction of the wallet from the cutoff onward, deposits included —
it decomposes exactly into the spec's non-deposit sum plus the deposit
sum over the same window, so a deposit contributes whenever its deposit
sum is non-zero. -/
theorem C2_spend_aggregate_decomposition (txs : List Transaction) (walletId : Nat)
    (since : Int) :
    getSpendSince txs walletId since =
      spendSinceSpecified txs walletId since + depositSpendSince txs walletId since := by
  induction txs with
  | nil => simp [getSpendSince, spendSinceSpecified, depositSpendSince]
  | cons t rest ih =>
      simp only [getSpendSince, spendSinceSpecified, depositSpendSince,
        List.filter_cons] at ih ⊢
      by_cases hb : (t.walletId == walletId && t.status == TxStatus.COMPLETED &&
          decide (since ≤ t.createdAt)) = true
      · by_cases hc : (t.category == some depositCategory) = true
        · simp only [hb, hc, Bool.and_true, Bool.and_false, Bool.not_true,
            Bool.false_eq_true, Bool.true_eq_false, if_true, if_false,
            List.foldr_cons]
          rw [ih]
          ring
        · simp only [hb, hc, Bool.and_true, Bool.and_false, Bool.not_false,
            Bool.false_eq_true, Bool.true_eq_false, if_true, if_false,
            List.foldr_cons]
          rw [ih]
          ring
      · simp only [hb, Bool.false_and, Bool.and_false, Bool.false_eq_true,
          if_false]
        exact ih

def depositTx : Transaction :=
  { id := 7, walletId := 1, amount := 100, category := some depositCategory,
    status := TxStatus.COMPLETED, createdAt := 10 }

/-- C2 counterexample: a single COMPLETED category-deposit transaction
inside the window makes the code's aggregate 100 while the spec's
non-deposit aggregate is 0 — deposits do count toward the limits. -/
theorem C2_deposit_counts_counterexample :
    depositTx.category = some depositCategory ∧
    depositTx.status = TxStatus.COMPLETED ∧
    (0 : Int) ≤ depositTx.createdAt ∧
    getSpendSince [depositTx] 1 0 = 100 ∧
    spendSinceSpecified [depositTx] 1 0 = 0 := by
  refine ⟨rfl, rfl, by norm_num [depositTx], ?_, ?_⟩
  · simp [getSpendSince, depositTx]
  · simp [spendSinceSpecified, depositTx, depositCategory]



-- ── C3: latched kill switch ──────────────────────────────────────────

/-- A latched kill switch: triggered, never reset, still active. -/
def latchedSwitch : KillSwitch :=
  { id := 5, walletId := 1, triggerType := KSTrigger.LOSS_AMOUNT, threshold := 50,
    triggered := true }

/-- The minimal state with the latched switch attached to the wallet. -/
def stLatched : St := { st0 with killSwitches := [latchedSwitch] }

/-- C3 counterexample: on a wallet with a latched kill switch the
admission persists the transaction with status REJECTED, not
KILL_SWITCHED as the claim states. -/
theorem C3_latched_status_counterexample :
    latchedSwitch.triggered = true ∧ latchedSwitch.resetAt = none ∧
    latchedSwitch.active = true ∧
    txStatusIn (submitTransaction stLatched clock0 req0).2 0 =
      some TxStatus.REJECTED ∧
    txStatusIn (submitTransaction stLatched clock0 req0).2 0 ≠
      some TxStatus.KILL_SWITCHED := by
  have hstat : txStatusIn (submitTransaction stLatched clock0 req0).2 0 =
      some TxStatus.REJECTED := by
    norm_num [submitTransaction, stLatched, st0, wallet0, latchedSwitch, req0, clock0,
      admissionEvaluation, rulesEvaluateTransaction, checkKillSwitch, checkSwitchList,
      txStatusIn]
    simp
  exact ⟨rfl, rfl, rfl, hstat, by rw [hstat]; simp⟩

/-- C3 (amended): an admission on an Active wallet with a latched kill
switch yields a kill-switched verdict (approved false), persists the
transaction as REJECTED with an unchanged balance, and leaves a latched
active switch on the wallet, so every subsequent admission receives the
same verdict until an operator reset clears the latch. -/
theorem C3_latched_switch_rejects (st : St) (clock : Clock) (req : SubmitRequest)
    (w : Wallet) (ks : KillSwitch)
    (hw : st.wallets.find? (fun x => x.id == req.walletId) = some w)
    (hact : w.status = WalletStatus.ACTIVE)
    (hamt : 0 < req.amount)
    (hbal : req.amount ≤ w.balance)
    (hks : ks ∈ st.killSwitches) (hkw : ks.walletId = req.walletId)
    (hka : ks.active = true) (hkt : ks.triggered = true) (hkr : ks.resetAt = none) :
    (admissionEvaluation st clock req).1.killSwitched = true ∧
    (admissionEvaluation st clock req).1.approved = false ∧
    (submitTransaction st clock req).1 =
      SubmitResult.rejected st.nextTxId (admissionEvaluation st clock req).1 ∧
    txStatusIn (submitTransaction st clock req).2 st.nextTxId =
      some TxStatus.REJECTED ∧
    walletBalance (submitTransaction st clock req).2 req.walletId = some w.balance ∧
    ∃ ks' ∈ (submitTransaction st clock req).2.killSwitches,
      ks'.walletId = req.walletId ∧ ks'.active = true ∧
      ks'.triggered = true ∧ ks'.resetAt = none := by
  have hksmem : ks ∈ st.killSwitches.filter
      (fun k => k.walletId == req.walletId && k.active) := by
    simp only [List.mem_filter]
    exact ⟨hks, by simp [hkw, hka]⟩
  have htrig : (checkKillSwitch st clock req.walletId).1.triggered = true := by
    unfold checkKillSwitch
    exact checkSwitchList_triggered_of_latched st clock req.walletId _ ks hksmem hkt hkr
  have hkill : (admissionEvaluation st clock req).1.killSwitched = true := by
    simp [admissionEvaluation, rulesEvaluateTransaction, htrig]
  have happr : (admissionEvaluation st clock req).1.approved = false := by
    simp [admissionEvaluation, rulesEvaluateTransaction, htrig]
  obtain ⟨h1, h2, h3, h4⟩ := submit_rejected_core st clock req w hw hact hamt hbal happr
  refine ⟨hkill, happr, h1, h2, h3, ?_⟩
  rw [h4]
  have hkeep := checkSwitchList_keeps_latched st clock req.walletId
    (st.killSwitches.filter (fun k => k.walletId == req.walletId && k.active))
    ks hks hkt hkr
  have hev : (admissionEvaluation st clock req).2.killSwitches =
      (checkKillSwitch st clock req.walletId).2.killSwitches := by
    simp only [admissionEvaluation, rulesEvaluateTransaction]
    split <;> rfl
  rw [hev]
  unfold checkKillSwitch
  obtain ⟨ks', hmem', hw', ha', ht', hr'⟩ := hkeep
  exact ⟨ks', hmem', by rw [hw', hkw], by rw [ha', hka], ht', hr'⟩

/-- Witness for C3's amended theorem at the concrete latched state. -/
theorem C3_latched_switch_rejects_witness :
    stLatched.wallets.find? (fun x => x.id == req0.walletId) = some wallet0 ∧
    latchedSwitch ∈ stLatched.killSwitches ∧
    latchedSwitch.triggered = true ∧ latchedSwitch.resetAt = none ∧
    ((admissionEvaluation stLatched clock0 req0).1.killSwitched = true ∧
      (admissionEvaluation stLatched clock0 req0).1.approved = false ∧
      (submitTransaction stLatched clock0 req0).1 =
        SubmitResult.rejected stLatched.nextTxId
          (admissionEvaluation stLatched clock0 req0).1 ∧
      txStatusIn (submitTransaction stLatched clock0 req0).2 stLatched.nextTxId =
        some TxStatus.REJECTED ∧
      walletBalance (submitTransaction stLatched clock0 req0).2 req0.walletId =
        some wallet0.balance ∧
      ∃ ks' ∈ (submitTransaction stLatched clock0 req0).2.killSwitches,
        ks'.walletId = req0.walletId ∧ ks'.active = true ∧
        ks'.triggered = true ∧ ks'.resetAt = none) :=
  ⟨rfl, by simp [stLatched], rfl, rfl,
    C3_latched_switch_rejects stLatched clock0 req0 wallet0 latchedSwitch rfl rfl
      (by norm_num [req0]) (by norm_num [req0, wallet0])
      (by simp [stLatched]) rfl rfl rfl rfl⟩



-- ── C4: placement of the dead-man gate ───────────────────────────────

/-- A combined state whose only agent is in the dead-man frozen set
while its wallet state is the minimal admissible one. -/
def sysFrozen : Sys :=
  { st := st0, agents := [{ id := 1 }], lineages := [], spawnEvents := [],
    frozenAgents := [1], txWindows := [], dmsConfigs := [], dmsEvents := [],
    crossPolicies := [], groups := [], crossTxs := [], nextCrossTxId := 0 }

/-- C4 counterexample: the dead-man gate blocks the frozen agent, yet
the admission route completes the spend — the admission never consults
the dead-man switch. -/
theorem C4_admission_skips_deadman_counterexample :
    (dmsEvaluateTransaction sysFrozen clock0.now 1 req0.amount none).1.allow = false ∧
    (submitTransaction sysFrozen.st clock0 req0).1 =
      SubmitResult.completed 0 (admissionEvaluation sysFrozen.st clock0 req0).1 ∧
    txStatusIn (submitTransaction sysFrozen.st clock0 req0).2 0 =
      some TxStatus.COMPLETED := by
  refine ⟨by simp [dmsEvaluateTransaction, sysFrozen], ?_, ?_⟩
  · norm_num [submitTransaction, sysFrozen, st0, wallet0, req0, clock0,
      admissionEvaluation, rulesEvaluateTransaction, checkKillSwitch, checkSwitchList,
      activeRules, sortByPriorityDesc, runRules, executeTransaction]
  · norm_num [submitTransaction, sysFrozen, st0, wallet0, req0, clock0,
      admissionEvaluation, rulesEvaluateTransaction, checkKillSwitch, checkSwitchList,
      activeRules, sortByPriorityDesc, runRules, executeTransaction, txStatusIn]

/-- C4 (amended): the dead-man gate runs only in the adapter send
paths — in the Coinbase sendTransaction and in the x402 proxy's 402
branch it is evaluated before the rules engine, and a frozen agent is
blocked there with no state change — while the core admission route
reads nothing of the dead-man state. -/
theorem C4_deadman_gate_only_in_adapters (sys : Sys) (clock : Clock) (agentId : Nat)
    (toAddress vendor : String) (desc : Option String) (amount : Rat)
    (purpose : Option String) (railOk serviceAllowed stripeOk : Bool)
    (hfrozen : sys.frozenAgents.contains agentId = true) :
    sendTransaction sys clock agentId toAddress amount purpose railOk =
      (SendResult.blockedByKillSwitch, sys) ∧
    x402HandlePayment sys clock agentId amount vendor desc serviceAllowed stripeOk =
      (X402Result.blockedByKillSwitch, sys) ∧
    (∀ (frozen' : List Nat) (req : SubmitRequest),
      submitTransaction { sys with frozenAgents := frozen' }.st clock req =
        submitTransaction sys.st clock req) := by
  have hmem : agentId ∈ sys.frozenAgents := by simpa using hfrozen
  have hd : ∀ v : Option String,
      dmsEvaluateTransaction sys clock.now agentId amount v =
        ({ allow := false }, sys) := by
    intro v
    unfold dmsEvaluateTransaction
    simp [hmem]
  refine ⟨?_, ?_, ?_⟩
  · unfold sendTransaction
    rw [hd none]
    simp
  · unfold x402HandlePayment
    rw [hd (some vendor)]
    simp
  · intro frozen' req
    rfl

/-- The destination address used by the adapter examples. -/
def addr0 : String := "0xdeadbeef"

/-- Witness for C4's amended theorem on the concrete frozen state: both
the Coinbase send and the x402 payment branch block agent 1. -/
theorem C4_deadman_gate_only_in_adapters_witness :
    sysFrozen.frozenAgents.contains 1 = true ∧
    sendTransaction sysFrozen clock0 1 addr0 10 none true =
      (SendResult.blockedByKillSwitch, sysFrozen) ∧
    x402HandlePayment sysFrozen clock0 1 10 addr0 none true true =
      (X402Result.blockedByKillSwitch, sysFrozen) := by
  have h := C4_deadman_gate_only_in_adapters sysFrozen clock0 1 addr0 addr0 none 10
    none true true true (by simp [sysFrozen])
  exact ⟨by simp [sysFrozen], h.1, h.2.1⟩

-- ── C6: audit rows written by the admission path ─────────────────────

/-- C6 counterexample: a fully approved admission completes while the
audit log stays empty — no AuditLog row records the admission outcome. -/
theorem C6_no_audit_row_counterexample :
    (submitTransaction st0 clock0 req0).1 =
      SubmitResult.completed 0 (admissionEvaluation st0 clock0 req0).1 ∧
    (submitTransaction st0 clock0 req0).2.auditLog = [] := by
  constructor
  · norm_num [submitTransaction, st0, wallet0, req0, clock0,
      admissionEvaluation, rulesEvaluateTransaction, checkKillSwitch, checkSwitchList,
      activeRules, sortByPriorityDesc, runRules, executeTransaction]
  · norm_num [submitTransaction, st0, wallet0, req0, clock0,
      admissionEvaluation, rulesEvaluateTransaction, checkKillSwitch, checkSwitchList,
      activeRules, sortByPriorityDesc, runRules, executeTransaction]

/-- executeTransaction never writes to the audit log. -/
theorem executeTransaction_auditLog (s : St) (clock : Clock) (i : Nat) :
    (executeTransaction s clock i).auditLog = s.auditLog := by
  unfold executeTransaction
  cases s.transactions.find? (fun t => t.id == i) <;> rfl

/-- C6 (amended): an admission appends no AuditLog row for its own
outcome; the only row it can append is the kill-switch trigger entry
(action KILL_SWITCH_TRIGGERED, decision BLOCKED, resource the wallet),
written when a switch fires during the pre-check. -/
theorem C6_admission_audit_rows (st : St) (clock : Clock) (req : SubmitRequest) :
    (submitTransaction st clock req).2.auditLog = st.auditLog ∨
    ∃ a : AuditEntry, (submitTransaction st clock req).2.auditLog = a :: st.auditLog ∧
      a.action = AuditAction.KILL_SWITCH_TRIGGERED ∧
      a.decision = AuditDecision.BLOCKED ∧ a.resourceId = req.walletId := by
  have hev : (admissionEvaluation st clock req).2.auditLog = st.auditLog ∨
      ∃ a : AuditEntry, (admissionEvaluation st clock req).2.auditLog = a :: st.auditLog ∧
        a.action = AuditAction.KILL_SWITCH_TRIGGERED ∧
        a.decision = AuditDecision.BLOCKED ∧ a.resourceId = req.walletId := by
    simp only [admissionEvaluation, rulesEvaluateTransaction, checkKillSwitch]
    split <;> exact checkSwitchList_audit st clock req.walletId _
  unfold submitTransaction
  by_cases h0 : (req.amount == 0) = true
  · left; simp [h0]
  · rw [if_neg h0]
    by_cases h1 : req.amount ≤ 0
    · left; simp [h1]
    · rw [if_neg h1]
      cases hw : st.wallets.find? (fun w => w.id == req.walletId) with
      | none => left; rfl
      | some w =>
          by_cases hs : w.status = WalletStatus.ACTIVE
          · by_cases h3 : w.balance < req.amount
            · left; simp [hs, h3]
            · cases ha : (admissionEvaluation st clock req).1.approved with
              | false =>
                  simp only [hs, ne_eq, not_true_eq_false, Bool.false_eq_true,
                    if_false, if_neg h3, ha, Bool.not_false, if_true]
                  simpa using hev
              | true =>
                  cases hra : (admissionEvaluation st clock req).1.requiresApproval with
                  | false =>
                      simp only [hs, ne_eq, not_true_eq_false, Bool.false_eq_true,
                        if_false, if_neg h3, ha, hra, Bool.not_true]
                      simpa [executeTransaction_auditLog] using hev
                  | true =>
                      simp only [hs, ne_eq, not_true_eq_false, Bool.false_eq_true,
                        if_false, if_neg h3, ha, hra, Bool.not_true, if_true]
                      simpa using hev
          · left; simp [hs]

-- ── C10: the dead-man gate is opt-in per agent ───────────────────────

/-- C10: an agent outside the frozen set with no dead-man config, or a
disabled one, passes the gate for every amount and vendor, with no
velocity, vendor or anomaly check and no state change. -/
theorem C10_dms_opt_in (sys : Sys) (now : Int) (agentId : Nat) (amount : Rat)
    (vendor : Option String)
    (hfrozen : sys.frozenAgents.contains agentId = false)
    (hcfg : sys.dmsConfigs.find? (fun c => c.agentId == agentId) = none ∨
      ∃ c, sys.dmsConfigs.find? (fun c => c.agentId == agentId) = some c ∧
        c.enabled = false) :
    dmsEvaluateTransaction sys now agentId amount vendor = ({ allow := true }, sys) := by
  unfold dmsEvaluateTransaction
  simp only [hfrozen, Bool.false_eq_true, if_false]
  rcases hcfg with h | ⟨c, hc, hen⟩
  · rw [h]
  · rw [hc]
    simp [hen]

/-- A combined state with an agent and no dead-man config at all. -/
def sysNoCfg : Sys :=
  { st := st0, agents := [{ id := 1 }], lineages := [], spawnEvents := [],
    frozenAgents := [], txWindows := [], dmsConfigs := [], dmsEvents := [],
    crossPolicies := [], groups := [], crossTxs := [], nextCrossTxId := 0 }

/-- Witness for C10 at the concrete config-less state. -/
theorem C10_dms_opt_in_witness :
    sysNoCfg.frozenAgents.contains 1 = false ∧
    dmsEvaluateTransaction sysNoCfg 999999 1 123456 (some addr0) =
      ({ allow := true }, sysNoCfg) :=
  ⟨rfl, C10_dms_opt_in sysNoCfg 999999 1 123456 (some addr0) rfl
    (Or.inl rfl)⟩



-- ── C5: semantics of the rule evaluation ─────────────────────────────

theorem checkPerTransactionLimit_reqApp (a : Rat) (p : RuleParams) :
    (checkPerTransactionLimit a p).requiresApproval = false := by
  unfold checkPerTransactionLimit
  cases p.limit <;> rfl

theorem checkLimitSince_reqApp (s a : Rat) (p : RuleParams) :
    (checkLimitSince s a p).requiresApproval = false := by
  unfold checkLimitSince
  cases p.limit <;> rfl

theorem checkCategoryWhitelist_reqApp (c : Option String) (p : RuleParams) :
    (checkCategoryWhitelist c p).requiresApproval = false := by
  unfold checkCategoryWhitelist
  cases c <;> rfl

theorem checkCategoryBlacklist_reqApp (c : Option String) (p : RuleParams) :
    (checkCategoryBlacklist c p).requiresApproval = false := by
  unfold checkCategoryBlacklist
  cases c <;> rfl

theorem checkRecipientWhitelist_reqApp (r : Option String) (p : RuleParams) :
    (checkRecipientWhitelist r p).requiresApproval = false := by
  unfold checkRecipientWhitelist
  cases r <;> rfl

theorem checkRecipientBlacklist_reqApp (r : Option String) (p : RuleParams) :
    (checkRecipientBlacklist r p).requiresApproval = false := by
  unfold checkRecipientBlacklist
  cases r <;> rfl

theorem checkTimeWindow_reqApp (h : Int) (p : RuleParams) :
    (checkTimeWindow h p).requiresApproval = false := by
  unfold checkTimeWindow
  cases p.startHour <;> cases p.endHour <;> rfl

theorem checkRequiresApproval_passes (a : Rat) (p : RuleParams) :
    (checkRequiresApproval a p).passed = true := by
  unfold checkRequiresApproval
  cases p.threshold <;> rfl

theorem checkRequiresApproval_flag (a : Rat) (p : RuleParams) :
    (checkRequiresApproval a p).requiresApproval = true ↔
      ∃ t, p.threshold = some t ∧ t < a := by
  unfold checkRequiresApproval
  cases h : p.threshold with
  | none => simp
  | some t => simp [h]

/-- The flag of a single rule result: raised exactly by an
ApprovalThreshold rule whose threshold the amount strictly exceeds. -/
theorem evaluateRule_requiresApproval_iff (clock : Clock) (txs : List Transaction)
    (walletId : Nat) (req : TxRequest) (rule : SpendRule) :
    (evaluateRule clock txs walletId req rule).requiresApproval = true ↔
      (rule.ruleType = RuleType.REQUIRES_APPROVAL ∧
        ∃ t, rule.parameters.threshold = some t ∧ t < req.amount) := by
  cases h : rule.ruleType
  case REQUIRES_APPROVAL =>
      simp only [evaluateRule, h, checkRequiresApproval_flag, true_and]
  all_goals
    simp only [evaluateRule, h, checkPerTransactionLimit_reqApp,
      checkLimitSince_reqApp, checkCategoryWhitelist_reqApp,
      checkCategoryBlacklist_reqApp, checkRecipientWhitelist_reqApp,
      checkRecipientBlacklist_reqApp, checkTimeWindow_reqApp,
      checkSignalFilter]
  all_goals simp

/-- An ApprovalThreshold rule never blocks. -/
theorem evaluateRule_req_passes (clock : Clock) (txs : List Transaction)
    (walletId : Nat) (req : TxRequest) (rule : SpendRule)
    (h : rule.ruleType = RuleType.REQUIRES_APPROVAL) :
    (evaluateRule clock txs walletId req rule).passed = true := by
  simp only [evaluateRule, h]
  exact checkRequiresApproval_passes req.amount rule.parameters

/-- C5: for every rules evaluation that the kill-switch pre-check does
not preempt — the active rules are a permutation of the wallet's active
rules, evaluated in descending priority; every rule contributes exactly
one result entry, in order; approved is the conjunction of all passed
flags, equivalently of the blocking (non-ApprovalThreshold) ones, since
ApprovalThreshold rules always pass; and requiresApproval holds exactly
when some active ApprovalThreshold rule has its threshold strictly
below the amount. -/
theorem C5_rules_evaluation_semantics (st : St) (clock : Clock) (walletId : Nat)
    (req : TxRequest)
    (hks : (checkKillSwitch st clock walletId).1.triggered = false) :
    (activeRules st.rules walletId).Perm
      (st.rules.filter (fun r => r.walletId == walletId && r.active)) ∧
    (activeRules st.rules walletId).Pairwise (fun a b => b.priority ≤ a.priority) ∧
    (rulesEvaluateTransaction st clock walletId req).1.results =
      (activeRules st.rules walletId).map
        (mkRuleResult clock st.transactions walletId req) ∧
    ((rulesEvaluateTransaction st clock walletId req).1.approved = true ↔
      ∀ r ∈ (rulesEvaluateTransaction st clock walletId req).1.results,
        r.passed = true) ∧
    (∀ r ∈ (rulesEvaluateTransaction st clock walletId req).1.results,
      r.ruleType = RuleType.REQUIRES_APPROVAL → r.passed = true) ∧
    ((rulesEvaluateTransaction st clock walletId req).1.approved = true ↔
      ∀ r ∈ (rulesEvaluateTransaction st clock walletId req).1.results,
        r.ruleType ≠ RuleType.REQUIRES_APPROVAL → r.passed = true) ∧
    ((rulesEvaluateTransaction st clock walletId req).1.requiresApproval = true ↔
      ∃ rule ∈ activeRules st.rules walletId,
        rule.ruleType = RuleType.REQUIRES_APPROVAL ∧
        ∃ t, rule.parameters.threshold = some t ∧ t < req.amount) := by
  have hst : (checkKillSwitch st clock walletId).2 = st := by
    unfold checkKillSwitch at hks ⊢
    exact checkSwitchList_not_triggered st clock walletId _ hks
  have hred : (rulesEvaluateTransaction st clock walletId req).1 =
      runRules clock st.transactions walletId req (activeRules st.rules walletId)
        true false [] := by
    simp only [rulesEvaluateTransaction, hks, Bool.false_eq_true, if_false, hst]
  rw [hred, runRules_eq]
  simp only [List.reverse_nil, List.nil_append, Bool.true_and, Bool.false_or]
  refine ⟨sortByPriorityDesc_perm _, sortByPriorityDesc_sorted _, ?_, ?_, ?_, ?_, ?_⟩
  · trivial
  · simp [List.all_eq_true]
  · intro r hr hreq
    rcases List.mem_map.mp hr with ⟨rule, hrule, rfl⟩
    exact evaluateRule_req_passes clock st.transactions walletId req rule
      (by simpa [mkRuleResult] using hreq)
  · rw [List.all_eq_true]
    constructor
    · intro hall r hr _
      exact hall r hr
    · intro hall r hr
      rcases List.mem_map.mp hr with ⟨rule, hrule, rfl⟩
      by_cases hrt : rule.ruleType = RuleType.REQUIRES_APPROVAL
      · exact evaluateRule_req_passes clock st.transactions walletId req rule hrt
      · exact hall _ hr (by simpa [mkRuleResult] using hrt)
  · rw [List.any_eq_true]
    constructor
    · rintro ⟨r, hr, hflag⟩
      rcases List.mem_map.mp hr with ⟨rule, hrule, rfl⟩
      have := (evaluateRule_requiresApproval_iff clock st.transactions walletId
        req rule).mp (by simpa [mkRuleResult] using hflag)
      exact ⟨rule, hrule, this⟩
    · rintro ⟨rule, hrule, hrt, t, ht, hlt⟩
      refine ⟨mkRuleResult clock st.transactions walletId req rule,
        List.mem_map_of_mem _ hrule, ?_⟩
      simp only [mkRuleResult]
      exact (evaluateRule_requiresApproval_iff clock st.transactions walletId
        req rule).mpr ⟨hrt, t, ht, hlt⟩

-- fixtures for the C5 witness: the approval-threshold scenario of the spec

/-- A per-transaction limit of 200 at priority 5. -/
def ruleLimit200 : SpendRule :=
  { id := 11, walletId := 1, ruleType := RuleType.PER_TRANSACTION_LIMIT,
    parameters := { limit := some 200 }, priority := 5 }

/-- An approval threshold of 75 at priority 1. -/
def ruleApproval75 : SpendRule :=
  { id := 12, walletId := 1, ruleType := RuleType.REQUIRES_APPROVAL,
    parameters := { threshold := some 75 }, priority := 1 }

/-- The minimal state with both rules installed. -/
def stRules : St := { st0 with rules := [ruleApproval75, ruleLimit200] }

/-- A candidate spend of 80. -/
def req80 : TxRequest := { amount := 80 }

/-- Witness for C5 on the two-rule state: both result entries are
present in priority order, the evaluation is approved, and the approval
flag is raised because 75 < 80. -/
theorem C5_rules_evaluation_semantics_witness :
    (checkKillSwitch stRules clock0 1).1.triggered = false ∧
    ((rulesEvaluateTransaction stRules clock0 1 req80).1.requiresApproval = true ↔
      ∃ rule ∈ activeRules stRules.rules 1,
        rule.ruleType = RuleType.REQUIRES_APPROVAL ∧
        ∃ t, rule.parameters.threshold = some t ∧ t < req80.amount) := by
  constructor
  · rfl
  · exact (C5_rules_evaluation_semantics stRules clock0 1 req80 (by rfl)).2.2.2.2.2.2



-- ── C7: derived child policy ─────────────────────────────────────────

/-- Clamp by an optional override via minimum. -/
def applyMin : Option Rat → Rat → Rat
  | some d, b => min d b
  | none, b => b

/-- Apply an optional further fraction, itself clamped to at most one. -/
def applyFrac : Option Rat → Rat → Rat
  | some f, b => b * min f 1
  | none, b => b

/-- The rule walk never populates the vendor-allowlist slot. -/
theorem extractParentRules_vendor_none (rules : List SpendRule) :
    (extractParentRules rules).vendorAllowlist = none := by
  suffices h : ∀ (l : List SpendRule) (pr : ParentRules), pr.vendorAllowlist = none →
      (l.foldl (fun pr r =>
        match r.ruleType with
        | RuleType.DAILY_LIMIT => { pr with dailyLimit := some (jsOr r.parameters.limit 1000) }
        | RuleType.PER_TRANSACTION_LIMIT =>
            { pr with maxSpendPerTx := some (jsOr r.parameters.limit 100) }
        | _ => pr) pr).vendorAllowlist = none by
    exact h rules {} rfl
  intro l
  induction l with
  | nil => intro pr h; exact h
  | cons r rest ih =>
      intro pr h
      simp only [List.foldl_cons]
      apply ih
      cases r.ruleType <;> simpa using h

/-- Closed form of _deriveChildPolicy: parent limit times the spawn
fraction, clamped by the override, then the daily-limit fraction; the
vendor allowlist is always empty because the walk never extracts one. -/
theorem deriveChildPolicy_eq (rules : List SpendRule) (sp : SpawnPolicy)
    (ov : PolicyOverrides) :
    deriveChildPolicy rules sp ov =
      { dailyLimit := applyFrac ov.dailyLimitFrac (applyMin ov.dailyLimit
          (jsOr (extractParentRules rules).dailyLimit 1000 * sp.maxSpendFrac)),
        maxSpendPerTx := applyMin ov.maxSpendPerTx
          (jsOr (extractParentRules rules).maxSpendPerTx 100 * sp.maxTransactionFrac),
        vendorAllowlist := [] } := by
  have hv := extractParentRules_vendor_none rules
  obtain ⟨odl, omx, oval, ofr⟩ := ov
  cases odl <;> cases omx <;> cases oval <;> cases ofr <;>
    simp [deriveChildPolicy, applyMin, applyFrac, hv]

/-- C7: every numeric limit of the derived child policy is the parent's
limit scaled by the spawn-policy fraction, clamped by any override via
minimum (an override can never loosen a limit), and equal to the scaled
parent limit when no override is supplied; the child's vendor allowlist
is the intersection of the override list with the parent's; with
fractions at most one, each child limit is at most the parent's. -/
theorem C7_child_policy_monotone (rules : List SpendRule) (sp : SpawnPolicy)
    (ov : PolicyOverrides)
    (hsf : 0 ≤ sp.maxSpendFrac) (hsf1 : sp.maxSpendFrac ≤ 1)
    (htf1 : sp.maxTransactionFrac ≤ 1)
    (hovd : ∀ d, ov.dailyLimit = some d → 0 ≤ d)
    (hpd : 0 ≤ jsOr (extractParentRules rules).dailyLimit 1000)
    (hpm : 0 ≤ jsOr (extractParentRules rules).maxSpendPerTx 100) :
    (deriveChildPolicy rules sp ov).dailyLimit ≤
      jsOr (extractParentRules rules).dailyLimit 1000 * sp.maxSpendFrac ∧
    (∀ d, ov.dailyLimit = some d →
      (deriveChildPolicy rules sp ov).dailyLimit ≤ d) ∧
    (ov.dailyLimit = none → ov.dailyLimitFrac = none →
      (deriveChildPolicy rules sp ov).dailyLimit =
        jsOr (extractParentRules rules).dailyLimit 1000 * sp.maxSpendFrac) ∧
    (deriveChildPolicy rules sp ov).maxSpendPerTx ≤
      jsOr (extractParentRules rules).maxSpendPerTx 100 * sp.maxTransactionFrac ∧
    (∀ m, ov.maxSpendPerTx = some m →
      (deriveChildPolicy rules sp ov).maxSpendPerTx ≤ m) ∧
    (ov.maxSpendPerTx = none →
      (deriveChildPolicy rules sp ov).maxSpendPerTx =
        jsOr (extractParentRules rules).maxSpendPerTx 100 * sp.maxTransactionFrac) ∧
    (deriveChildPolicy rules sp ov).vendorAllowlist =
      (ov.vendorAllowlist.getD []).filter (fun v =>
        ((extractParentRules rules).vendorAllowlist.getD []).contains v) ∧
    (deriveChildPolicy rules sp ov).dailyLimit ≤
      jsOr (extractParentRules rules).dailyLimit 1000 ∧
    (deriveChildPolicy rules sp ov).maxSpendPerTx ≤
      jsOr (extractParentRules rules).maxSpendPerTx 100 := by
  rw [deriveChildPolicy_eq]
  have hA : (0 : Rat) ≤ jsOr (extractParentRules rules).dailyLimit 1000 *
      sp.maxSpendFrac := mul_nonneg hpd hsf
  have hA1 : jsOr (extractParentRules rules).dailyLimit 1000 * sp.maxSpendFrac ≤
      jsOr (extractParentRules rules).dailyLimit 1000 :=
    mul_le_of_le_one_right hpd hsf1
  have hB1 : jsOr (extractParentRules rules).maxSpendPerTx 100 *
      sp.maxTransactionFrac ≤ jsOr (extractParentRules rules).maxSpendPerTx 100 :=
    mul_le_of_le_one_right hpm htf1
  have hminle : ∀ (o : Option Rat) (b : Rat), applyMin o b ≤ b := by
    intro o b
    cases o with
    | none => exact le_refl b
    | some d => exact min_le_right d b
  have hfracle : ∀ (o : Option Rat) (b : Rat), 0 ≤ b → applyFrac o b ≤ b := by
    intro o b hb
    cases o with
    | none => exact le_refl b
    | some f => exact mul_le_of_le_one_right hb (min_le_right f 1)
  have hbase : 0 ≤ applyMin ov.dailyLimit
      (jsOr (extractParentRules rules).dailyLimit 1000 * sp.maxSpendFrac) := by
    cases ho : ov.dailyLimit with
    | none => exact hA
    | some d => exact le_min (hovd d ho) hA
  refine ⟨?_, ?_, ?_, ?_, ?_, ?_, ?_, ?_, ?_⟩
  · exact le_trans (hfracle _ _ hbase) (hminle _ _)
  · intro d hd
    rw [hd] at hbase ⊢
    exact le_trans (hfracle _ _ hbase) (min_le_left d _)
  · intro h1 h2
    rw [h1, h2]
    rfl
  · exact hminle _ _
  · intro m hm
    rw [hm]
    exact min_le_left m _
  · intro h
    rw [h]
    rfl
  · simp [extractParentRules_vendor_none]
  · exact le_trans (le_trans (hfracle _ _ hbase) (hminle _ _)) hA1
  · exact le_trans (hminle _ _) hB1

/-- The parent's daily-limit rule of the spec's spawn scenario. -/
def parentDaily1000 : SpendRule :=
  { id := 21, walletId := 1, ruleType := RuleType.DAILY_LIMIT,
    parameters := { limit := some 1000 } }

/-- A spawn policy scaling spend by one half. -/
def spHalf : SpawnPolicy := { maxSpendFrac := 1 / 2 }

/-- An override asking for a daily limit of 800. -/
def ovDaily800 : PolicyOverrides := { dailyLimit := some 800 }

/-- Witness for C7 at the spec's example: parent daily limit 1000,
spawn fraction one half, override 800; the derived child daily limit is
min(800, 500) = 500, at most the scaled parent limit and the parent
limit itself. -/
theorem C7_child_policy_monotone_witness :
    (0 : Rat) ≤ spHalf.maxSpendFrac ∧ spHalf.maxSpendFrac ≤ 1 ∧
    (deriveChildPolicy [parentDaily1000] spHalf ovDaily800).dailyLimit = 500 ∧
    ((deriveChildPolicy [parentDaily1000] spHalf ovDaily800).dailyLimit ≤
        jsOr (extractParentRules [parentDaily1000]).dailyLimit 1000 *
          spHalf.maxSpendFrac ∧
      (deriveChildPolicy [parentDaily1000] spHalf ovDaily800).dailyLimit ≤
        jsOr (extractParentRules [parentDaily1000]).dailyLimit 1000) := by
  have h := C7_child_policy_monotone [parentDaily1000] spHalf ovDaily800
    (by norm_num [spHalf]) (by norm_num [spHalf]) (by norm_num [spHalf])
    (by intro d hd
        simp only [ovDaily800] at hd
        cases hd
        norm_num)
    (by norm_num [extractParentRules, parentDaily1000, jsOr])
    (by norm_num [extractParentRules, parentDaily1000, jsOr])
  refine ⟨by norm_num [spHalf], by norm_num [spHalf], ?_, h.1, h.2.2.2.2.2.2.2.1⟩
  rw [deriveChildPolicy_eq]
  norm_num [applyFrac, applyMin, ovDaily800, extractParentRules, parentDaily1000,
    jsOr, spHalf, min_def]



-- ── C8: dead-man cascade reaches direct children only ────────────────

/-- Root of the three-level lineage example. -/
def lin1 : Lineage := { agentId := 1, rootId := 1, depth := 0, childrenIds := [2] }

/-- Middle node of the lineage: child of 1, parent of 3. -/
def lin2 : Lineage :=
  { agentId := 2, parentId := some 1, rootId := 1, depth := 1, childrenIds := [3] }

/-- Grandchild node of the lineage. -/
def lin3 : Lineage := { agentId := 3, parentId := some 2, rootId := 1, depth := 2 }

/-- A dead-man config with the default cascade flag (true). -/
def cfgCascade : DmsConfig := { agentId := 1 }

/-- A three-agent system with the lineage 1 → 2 → 3. -/
def sysTree : Sys :=
  { st := st0, agents := [{ id := 1 }, { id := 2 }, { id := 3 }],
    lineages := [lin1, lin2, lin3], spawnEvents := [], frozenAgents := [],
    txWindows := [], dmsConfigs := [cfgCascade], dmsEvents := [],
    crossPolicies := [], groups := [], crossTxs := [], nextCrossTxId := 0 }

/-- C8 counterexample: a freeze with cascadeToChildren set freezes the
agent and its direct child but leaves the grandchild active — the
cascade is not recursive over all descendants. -/
theorem C8_cascade_counterexample :
    cfgCascade.cascadeToChildren = true ∧
    lin2.parentId = some 1 ∧ lin3.parentId = some 2 ∧
    (dmsTrigger sysTree 1 DmsTriggerType.heartbeat DmsAction.freeze
      (some cfgCascade)).frozenAgents = [1, 2] ∧
    (3 ∉ (dmsTrigger sysTree 1 DmsTriggerType.heartbeat DmsAction.freeze
      (some cfgCascade)).frozenAgents) ∧
    agentStatusIn (dmsTrigger sysTree 1 DmsTriggerType.heartbeat DmsAction.freeze
      (some cfgCascade)) 3 = some AgentStatus.ACTIVE := by
  refine ⟨rfl, rfl, rfl, ?_, ?_, ?_⟩
  · simp [dmsTrigger, sysTree, childrenOf, lineageOf, lin1, lin2, lin3, cfgCascade]
  · simp [dmsTrigger, sysTree, childrenOf, lineageOf, lin1, lin2, lin3, cfgCascade]
  · simp [dmsTrigger, sysTree, childrenOf, lineageOf, lin1, lin2, lin3, cfgCascade,
      agentStatusIn]

/-- C8 (amended): when a dead-man trigger fires with action freeze or
terminate and cascadeToChildren is set, the frozen set gains exactly
the agent and its direct lineage children, every direct child present
in the agent table moves to FROZEN (respectively TERMINATED), and the
recorded event lists exactly the direct children as cascadedTo;
deeper descendants are not visited. -/
theorem C8_cascade_direct_children (sys : Sys) (agentId : Nat)
    (tt : DmsTriggerType) (action : DmsAction) (config : DmsConfig)
    (hc : config.cascadeToChildren = true)
    (ha : action = DmsAction.freeze ∨ action = DmsAction.terminate) :
    (dmsTrigger sys agentId tt action (some config)).frozenAgents =
      (agentId :: childrenOf sys agentId) ++ sys.frozenAgents ∧
    (dmsTrigger sys agentId tt action (some config)).dmsEvents =
      { agentId := agentId, triggerType := tt, actionTaken := action,
        cascadedTo := childrenOf sys agentId, resolved := false } :: sys.dmsEvents ∧
    (∀ c, (c = agentId ∨ c ∈ childrenOf sys agentId) → ∀ s : AgentStatus,
      agentStatusIn sys c = some s →
      agentStatusIn (dmsTrigger sys agentId tt action (some config)) c =
        some (if action = DmsAction.freeze then AgentStatus.FROZEN
          else AgentStatus.TERMINATED)) := by
  rcases ha with rfl | rfl
  · refine ⟨by simp [dmsTrigger, hc], by simp [dmsTrigger, hc], ?_⟩
    intro c hcmem s hs
    simp only [dmsTrigger, hc, if_true, agentStatusIn] at hs ⊢
    rw [find?_map_of_pred_preserved _ _ (fun a => by split <;> split <;> rfl)]
    cases hf : sys.agents.find? (fun a => a.id == c) with
    | none => rw [hf] at hs; simp at hs
    | some a0 =>
        rw [hf] at hs
        have ha0 : (a0.id == c) = true := by
          have h2 := List.find?_some hf
          simpa using h2
        have hbranch : a0.id = agentId ∨ a0.id ∈ childrenOf sys agentId := by
          have hid : a0.id = c := by simpa using ha0
          rcases hcmem with rfl | hmem
          · left; exact hid
          · right; rw [hid]; exact hmem
        simp only [Option.map_some']
        congr 1
        rcases hbranch with hb | hb <;> simp [hb, hc]
  · refine ⟨by simp [dmsTrigger, hc], by simp [dmsTrigger, hc], ?_⟩
    intro c hcmem s hs
    simp only [dmsTrigger, hc, if_true, agentStatusIn] at hs ⊢
    rw [find?_map_of_pred_preserved _ _ (fun a => by split <;> split <;> rfl)]
    cases hf : sys.agents.find? (fun a => a.id == c) with
    | none => rw [hf] at hs; simp at hs
    | some a0 =>
        rw [hf] at hs
        have ha0 : (a0.id == c) = true := by
          have h2 := List.find?_some hf
          simpa using h2
        have hbranch : a0.id = agentId ∨ a0.id ∈ childrenOf sys agentId := by
          have hid : a0.id = c := by simpa using ha0
          rcases hcmem with rfl | hmem
          · left; exact hid
          · right; rw [hid]; exact hmem
        simp only [Option.map_some']
        congr 1
        rcases hbranch with hb | hb <;> simp [hb, hc]

/-- Witness for C8's amended theorem on the three-level lineage. -/
theorem C8_cascade_direct_children_witness :
    cfgCascade.cascadeToChildren = true ∧
    ((dmsTrigger sysTree 1 DmsTriggerType.heartbeat DmsAction.freeze
        (some cfgCascade)).frozenAgents =
      (1 :: childrenOf sysTree 1) ++ sysTree.frozenAgents ∧
    (dmsTrigger sysTree 1 DmsTriggerType.heartbeat DmsAction.freeze
        (some cfgCascade)).dmsEvents =
      { agentId := 1, triggerType := DmsTriggerType.heartbeat,
        actionTaken := DmsAction.freeze, cascadedTo := childrenOf sysTree 1,
        resolved := false } :: sysTree.dmsEvents) := by
  have h := C8_cascade_direct_children sysTree 1 DmsTriggerType.heartbeat
    DmsAction.freeze cfgCascade rfl (Or.inl rfl)
  exact ⟨rfl, h.1, h.2.1⟩



-- ── C9: cross-agent policy resolution specificity ────────────────────

/-- The no-policy record that authorizeTransaction persists: an
unauthorized, human-required cross-agent transaction with failed
settlement and no policy reference. -/
def noPolicyRecord (sys : Sys) (now : Int) (sourceId targetId : Nat)
    (amount : Rat) (paymentType : String) : CrossAgentTransaction :=
  { id := sys.nextCrossTxId, sourceAgentId := sourceId, targetAgentId := targetId,
    amount := amount, paymentType := paymentType, policyId := none,
    authorized := false, authorizationMethod := AuthMethod.auto,
    settlementStatus := SettlementStatus.failed, requiresHuman := true,
    createdAt := now }

/-- No enabled exact (source, target) policy in the table means the
exact-match lookup finds nothing. -/
theorem exactFind_none_of_no_exact (policies : List CrossAgentPolicy)
    (sourceId targetId : Nat)
    (hno : ¬ ∃ p ∈ policies, p.sourceAgentId = sourceId ∧
      p.targetAgentId = some targetId ∧ p.enabled = true) :
    policies.find? (fun q => q.sourceAgentId == sourceId &&
      q.targetAgentId == some targetId && q.enabled) = none := by
  cases hx : policies.find? (fun q => q.sourceAgentId == sourceId &&
      q.targetAgentId == some targetId && q.enabled) with
  | none => rfl
  | some pe =>
      exfalso
      apply hno
      have hmem := List.mem_of_find?_eq_some hx
      have h2 := List.find?_some hx
      have h3 : pe.sourceAgentId = sourceId ∧ pe.targetAgentId = some targetId ∧
          pe.enabled = true := by simpa [Bool.and_eq_true, and_assoc] using h2
      exact ⟨pe, hmem, h3⟩

/-- C9: cross-agent policy resolution is most-specific-first. Every
resolved policy is one of the stored policies, enabled and owned by the
source. An enabled exact (source, target) policy always wins and the
resolved policy targets the agent exactly. With no exact match but an
enabled group policy over a group containing the target, resolution
succeeds with such a group policy — the wildcard is never chosen over
a group match. With neither, any resolved policy is the wildcard with
both target fields null. And when nothing resolves,
authorizeTransaction persists an unauthorized CrossAgentTransaction
with requiresHuman = true. -/
theorem C9_policy_resolution (sys : Sys) (now : Int) (sourceId targetId : Nat)
    (amount : Rat) (paymentType : String) :
    (∀ p, resolvePolicy sys.crossPolicies sys.groups sourceId targetId = some p →
      p ∈ sys.crossPolicies ∧ p.enabled = true ∧ p.sourceAgentId = sourceId) ∧
    ((∃ p ∈ sys.crossPolicies, p.sourceAgentId = sourceId ∧
        p.targetAgentId = some targetId ∧ p.enabled = true) →
      ∃ p, resolvePolicy sys.crossPolicies sys.groups sourceId targetId = some p ∧
        p.targetAgentId = some targetId) ∧
    ((¬ ∃ p ∈ sys.crossPolicies, p.sourceAgentId = sourceId ∧
        p.targetAgentId = some targetId ∧ p.enabled = true) →
      (∃ g ∈ sys.groups, targetId ∈ g.agentIds ∧
        ∃ q ∈ sys.crossPolicies, q.sourceAgentId = sourceId ∧
          q.targetAgentGroup = some g.name ∧ q.enabled = true) →
      ∃ p, resolvePolicy sys.crossPolicies sys.groups sourceId targetId = some p ∧
        ∃ g ∈ sys.groups, targetId ∈ g.agentIds ∧
          p.targetAgentGroup = some g.name) ∧
    ((¬ ∃ p ∈ sys.crossPolicies, p.sourceAgentId = sourceId ∧
        p.targetAgentId = some targetId ∧ p.enabled = true) →
      (¬ ∃ g ∈ sys.groups, targetId ∈ g.agentIds ∧
        ∃ q ∈ sys.crossPolicies, q.sourceAgentId = sourceId ∧
          q.targetAgentGroup = some g.name ∧ q.enabled = true) →
      ∀ p, resolvePolicy sys.crossPolicies sys.groups sourceId targetId = some p →
        p.targetAgentId = none ∧ p.targetAgentGroup = none) ∧
    (resolvePolicy sys.crossPolicies sys.groups sourceId targetId = none →
      (crossAuthorizeTransaction sys now sourceId targetId amount paymentType).1 =
        CrossResult.noPolicy sys.nextCrossTxId ∧
      (crossAuthorizeTransaction sys now sourceId targetId amount
          paymentType).2.crossTxs =
        noPolicyRecord sys now sourceId targetId amount paymentType ::
          sys.crossTxs) := by
  refine ⟨?_, ?_, ?_, ?_, ?_⟩
  · intro p hp
    unfold resolvePolicy at hp
    cases hexact : sys.crossPolicies.find? (fun q =>
        q.sourceAgentId == sourceId && q.targetAgentId == some targetId &&
          q.enabled) with
    | some pe =>
        rw [hexact] at hp
        cases hp
        have hmem := List.mem_of_find?_eq_some hexact
        have h2 := List.find?_some hexact
        have h3 : p.sourceAgentId = sourceId ∧ p.targetAgentId = some targetId ∧
            p.enabled = true := by simpa [Bool.and_eq_true, and_assoc] using h2
        exact ⟨hmem, h3.2.2, h3.1⟩
    | none =>
        rw [hexact] at hp
        cases hgrp : (sys.groups.filter (fun g =>
            g.agentIds.contains targetId)).findSome? (fun g =>
              sys.crossPolicies.find? (fun q =>
                q.sourceAgentId == sourceId && q.targetAgentGroup == some g.name
                  && q.enabled)) with
        | some pg =>
            rw [hgrp] at hp
            cases hp
            obtain ⟨g, _, hfind⟩ := List.exists_of_findSome?_eq_some hgrp
            have hmem := List.mem_of_find?_eq_some hfind
            have h2 := List.find?_some hfind
            have h3 : p.sourceAgentId = sourceId ∧
                p.targetAgentGroup = some g.name ∧ p.enabled = true := by
              simpa [Bool.and_eq_true, and_assoc] using h2
            exact ⟨hmem, h3.2.2, h3.1⟩
        | none =>
            rw [hgrp] at hp
            have hmem := List.mem_of_find?_eq_some hp
            have h2 := List.find?_some hp
            have h3 : p.sourceAgentId = sourceId ∧ p.targetAgentId = none ∧
                p.targetAgentGroup = none ∧ p.enabled = true := by
              simpa [Bool.and_eq_true, and_assoc] using h2
            exact ⟨hmem, h3.2.2.2, h3.1⟩
  · rintro ⟨p, hmem, hsrc, htgt, hen⟩
    have hsome : (sys.crossPolicies.find? (fun q =>
        q.sourceAgentId == sourceId && q.targetAgentId == some targetId &&
          q.enabled)).isSome := by
      rw [List.find?_isSome]
      exact ⟨p, hmem, by simp [hsrc, htgt, hen]⟩
    obtain ⟨pe, hpe⟩ := Option.isSome_iff_exists.mp hsome
    have h2 := List.find?_some hpe
    have h3 : pe.targetAgentId = some targetId := by
      have := (by simpa [Bool.and_eq_true, and_assoc] using h2 :
        pe.sourceAgentId = sourceId ∧ pe.targetAgentId = some targetId ∧
          pe.enabled = true)
      exact this.2.1
    refine ⟨pe, ?_, h3⟩
    unfold resolvePolicy
    rw [hpe]
  · intro hno hgm
    have hexact := exactFind_none_of_no_exact sys.crossPolicies sourceId targetId hno
    obtain ⟨g, hgmem, hgt, q, hqmem, hqsrc, hqgrp, hqen⟩ := hgm
    have hgfilter : g ∈ sys.groups.filter (fun g1 =>
        g1.agentIds.contains targetId) := by
      rw [List.mem_filter]
      exact ⟨hgmem, by simpa using hgt⟩
    have hinner : (sys.crossPolicies.find? (fun q1 =>
        q1.sourceAgentId == sourceId && q1.targetAgentGroup == some g.name &&
          q1.enabled)).isSome := by
      rw [List.find?_isSome]
      exact ⟨q, hqmem, by simp [hqsrc, hqgrp, hqen]⟩
    cases hgrp : (sys.groups.filter (fun g1 =>
        g1.agentIds.contains targetId)).findSome? (fun g1 =>
          sys.crossPolicies.find? (fun q1 =>
            q1.sourceAgentId == sourceId && q1.targetAgentGroup == some g1.name
              && q1.enabled)) with
    | none =>
        exfalso
        rw [List.findSome?_eq_none_iff] at hgrp
        have hgnone := hgrp g hgfilter
        rw [hgnone] at hinner
        simp at hinner
    | some pg =>
        refine ⟨pg, ?_, ?_⟩
        · unfold resolvePolicy
          rw [hexact, hgrp]
        · obtain ⟨g2, hg2mem, hfind⟩ := List.exists_of_findSome?_eq_some hgrp
          have hg2grp : g2 ∈ sys.groups := List.mem_of_mem_filter hg2mem
          have hg2t : targetId ∈ g2.agentIds := by
            simpa using List.of_mem_filter hg2mem
          have h2 := List.find?_some hfind
          have h3 : pg.sourceAgentId = sourceId ∧
              pg.targetAgentGroup = some g2.name ∧ pg.enabled = true := by
            simpa [Bool.and_eq_true, and_assoc] using h2
          exact ⟨g2, hg2grp, hg2t, h3.2.1⟩
  · intro hno hnogm p hp
    have hexact := exactFind_none_of_no_exact sys.crossPolicies sourceId targetId hno
    unfold resolvePolicy at hp
    rw [hexact] at hp
    cases hgrp : (sys.groups.filter (fun g1 =>
        g1.agentIds.contains targetId)).findSome? (fun g1 =>
          sys.crossPolicies.find? (fun q1 =>
            q1.sourceAgentId == sourceId && q1.targetAgentGroup == some g1.name
              && q1.enabled)) with
    | some pg =>
        exfalso
        apply hnogm
        obtain ⟨g, hgmem, hfind⟩ := List.exists_of_findSome?_eq_some hgrp
        have h2 := List.find?_some hfind
        have h3 : pg.sourceAgentId = sourceId ∧
            pg.targetAgentGroup = some g.name ∧ pg.enabled = true := by
          simpa [Bool.and_eq_true, and_assoc] using h2
        exact ⟨g, List.mem_of_mem_filter hgmem,
          by simpa using List.of_mem_filter hgmem,
          pg, List.mem_of_find?_eq_some hfind, h3.1, h3.2.1, h3.2.2⟩
    | none =>
        rw [hgrp] at hp
        have h2 := List.find?_some hp
        have h3 : p.sourceAgentId = sourceId ∧ p.targetAgentId = none ∧
            p.targetAgentGroup = none ∧ p.enabled = true := by
          simpa [Bool.and_eq_true, and_assoc] using h2
        exact ⟨h3.2.1, h3.2.2.1⟩
  · intro hnone
    unfold crossAuthorizeTransaction
    rw [hnone]
    exact ⟨rfl, rfl⟩

/-- An enabled exact policy from agent 1 to agent 2. -/
def pExact : CrossAgentPolicy :=
  { id := 1, ownerId := 1, sourceAgentId := 1, targetAgentId := some 2 }

/-- A system holding only the exact policy. -/
def sysExact : Sys :=
  { st := st0, agents := [], lineages := [], spawnEvents := [], frozenAgents := [],
    txWindows := [], dmsConfigs := [], dmsEvents := [], crossPolicies := [pExact],
    groups := [], crossTxs := [], nextCrossTxId := 0 }

/-- An enabled group policy from agent 1 to the traders group. -/
def pGroup : CrossAgentPolicy :=
  { id := 2, ownerId := 1, sourceAgentId := 1, targetAgentGroup := some "traders" }

/-- Agent 1's enabled wildcard policy (both target fields null). -/
def pWild : CrossAgentPolicy := { id := 3, ownerId := 1, sourceAgentId := 1 }

/-- The traders group, holding agent 2. -/
def gTraders : AgentGroup :=
  { id := 1, ownerId := 1, name := "traders", agentIds := [2] }

/-- A system whose policy table lists the wildcard ahead of the group
policy, with the traders group holding agent 2. -/
def sysGroup : Sys :=
  { st := st0, agents := [], lineages := [], spawnEvents := [], frozenAgents := [],
    txWindows := [], dmsConfigs := [], dmsEvents := [],
    crossPolicies := [pWild, pGroup], groups := [gTraders], crossTxs := [],
    nextCrossTxId := 0 }

/-- Witness for C9: an enabled exact policy resolves to an exact match;
with no exact match the group policy over the group holding the target
is chosen even though the wildcard precedes it in the table; and with
no policy at all the human-required record is persisted. -/
theorem C9_policy_resolution_witness :
    (∃ p, resolvePolicy sysExact.crossPolicies sysExact.groups 1 2 = some p ∧
      p.targetAgentId = some 2) ∧
    (∃ p, resolvePolicy sysGroup.crossPolicies sysGroup.groups 1 2 = some p ∧
      ∃ g ∈ sysGroup.groups, 2 ∈ g.agentIds ∧ p.targetAgentGroup = some g.name) ∧
    (crossAuthorizeTransaction sysTree 0 1 2 5 transferPaymentType).2.crossTxs =
      noPolicyRecord sysTree 0 1 2 5 transferPaymentType :: sysTree.crossTxs := by
  refine ⟨?_, ?_, ?_⟩
  · exact (C9_policy_resolution sysExact 0 1 2 5 transferPaymentType).2.1
      ⟨pExact, by simp [sysExact], rfl, rfl, rfl⟩
  · exact (C9_policy_resolution sysGroup 0 1 2 5 transferPaymentType).2.2.1
      (by
        rintro ⟨p, hmem, hsrc, htgt, hen⟩
        have hcases : p = pWild ∨ p = pGroup := by simpa [sysGroup] using hmem
        rcases hcases with rfl | rfl
        · simp [pWild] at htgt
        · simp [pGroup] at htgt)
      ⟨gTraders, by simp [sysGroup], by simp [gTraders],
        pGroup, by simp [sysGroup], rfl, rfl, rfl⟩
  · exact ((C9_policy_resolution sysTree 0 1 2 5 transferPaymentType).2.2.2.2
      (by simp [sysTree, resolvePolicy])).2

end AgentWallet
